import Mathlib

/-!
Verification development for the reconciliation/settlement engine of the
bookkeeper repository (`core/reconciliation.py` together with the data model
of `database/models.py`).

Modelling conventions:
* Python floats holding currency values are modelled as exact rationals `ℚ`
  (the spec tracks money as decimal currency values with a 0.01 tolerance).
* Dates are modelled as whole days (`Int`); `(a - b).days` becomes `a - b`.
* Nullable SQL string columns become `Option String`; Python truthiness of a
  string (`if txn.reference`) is "present and non-empty".
* The GST amount columns default to `0.0`; `x and x > 0` / `(x or 0) > 0` on
  them both reduce to `x > 0`, so they are modelled as plain `ℚ`.
* The database session is modelled as an explicit `DBState` record threaded
  through the operations; `db.add`/`db.commit` become functional updates.
  Each engine function commits before returning, and
  `create_journal_entry_from_reconciliation` calls `db.flush()`, so newly
  created reconciliations are visible to later `total_reconciled` queries in
  the same run exactly as in the threaded state.
* Timestamps (`settled_at`, `created_at`) and presentation-only strings
  (`narration`, `account_name`, the bank-name/account-number extraction) are
  not modelled; journal-entry lines are identified by their `account_code`
  exactly as assigned in the source ("1100" bank, "1200" debtors,
  "2100" creditors, "2310"/"2311" IGST settlement, "2320"/"2321"
  CGST/SGST settlement, "9999" suspense).
* `report_generator.regenerate_csvs` is defined with keyword parameters
  `user_id` and `description` only, while `settle_reconciliation` and
  `reconcile_transactions` invoke it as `regenerate_csvs(company_id=...)`
  after `db.commit()`, so every effective settlement path raises `TypeError`
  post-commit.  `settle_reconciliation`, `manual_settle` and
  `reconcile_transactions` model the committed database state together with
  the value the `return` statement would produce; the raise channel of the
  terminal CSV call is modelled by `settle_reconciliation_outcome` and
  `manual_settle_outcome`, and inside the pending sweep the per-item
  `try/except` catches that raise after the commit, which `sweepStep`
  reflects (the committed state persists, `settled_existing` is not
  incremented).
-/

/-! ## Enumerations (database/models.py) -/

inductive InvoiceType where
  | sales | purchase
deriving DecidableEq, Repr

inductive InvoiceStatus where
  | pending | paid | partially_paid
deriving DecidableEq, Repr

inductive JournalEntryType where
  | sales | purchase | payment | receipt | other
deriving DecidableEq, Repr

inductive TransactionType where
  | credit | debit
deriving DecidableEq, Repr

inductive TransactionStatus where
  | unmatched | matched | settled
deriving DecidableEq, Repr

inductive MatchType where
  | exact | fuzzy | manual
deriving DecidableEq, Repr

inductive ReconciliationStatus where
  | pending | verified | settled
deriving DecidableEq, Repr

/-! ## Records (database/models.py) -/

structure BankTransaction where
  transaction_id : Nat
  company_id : Nat
  date : Int
  amount : ℚ
  description : Option String
  reference : Option String
  type : TransactionType
  status : TransactionStatus
deriving DecidableEq, Repr

structure Invoice where
  invoice_id : Nat
  company_id : Nat
  vendor_id : Option Nat
  buyer_id : Option Nat
  invoice_type : InvoiceType
  invoice_number : String
  invoice_date : Option Int
  amount : ℚ
  taxable_amount : ℚ
  igst_amount : ℚ
  cgst_amount : ℚ
  sgst_amount : ℚ
  status : InvoiceStatus
deriving DecidableEq, Repr

structure Reconciliation where
  reconciliation_id : Nat
  transaction_id : Nat
  invoice_id : Nat
  match_type : MatchType
  match_confidence : ℚ
  status : ReconciliationStatus
deriving DecidableEq, Repr

structure JournalEntry where
  entry_id : Nat
  company_id : Nat
  entry_type : JournalEntryType
  date : Int
  reference : String
deriving DecidableEq, Repr

structure JournalEntryLine where
  entry_id : Nat
  account_code : String
  debit : ℚ
  credit : ℚ
deriving DecidableEq, Repr

/-! ## String helpers

Python string operations are modelled on `List Char` so that every function
reduces structurally (`String.splitOn` is avoided).  `pyInStr needle hay`
models the Python expression `needle in hay`; `lowerChars` models
`s.lower()`; `baseNumChars` models `s.split('-')[0].split('_')[0]`. -/

def lowerChars (s : String) : List Char :=
  s.data.map Char.toLower

def pyInStr (needle : List Char) : List Char → Bool
  | [] => needle.isEmpty
  | c :: rest => needle.isPrefixOf (c :: rest) || pyInStr needle rest

def baseNumChars (s : String) : List Char :=
  (s.data.takeWhile (fun c => c ≠ '-')).takeWhile (fun c => c ≠ '_')

/-- Python truthiness of an optional string column: present and non-empty. -/
def strTruthy : Option String → Bool
  | none => false
  | some s => !s.data.isEmpty

/-! ## Matching strategies (core/reconciliation.py, exact_match / fuzzy_match /
partial_payment_match). Each returns `(confidence, matchType?)`. -/

/-- Date rejection test of `exact_match`: an invoice date more than 1 day away. -/
def exactDateReject (txn : BankTransaction) (invoice : Invoice) : Bool :=
  match invoice.invoice_date with
  | some d => decide (|txn.date - d| > 1)
  | none => false

/-- Model of `exact_match`: amount to the cent, dates within 1 day, reference bonus. -/
def exact_match (txn : BankTransaction) (invoice : Invoice) : ℚ × Option MatchType :=
  if |txn.amount - invoice.amount| > 1/100 then (0, none)
  else if exactDateReject txn invoice then (0, none)
  else if strTruthy txn.reference && !invoice.invoice_number.data.isEmpty &&
          (pyInStr (lowerChars invoice.invoice_number) (lowerChars (txn.reference.getD "")) ||
           pyInStr (lowerChars (txn.reference.getD "")) (lowerChars invoice.invoice_number))
       then (98/100, some .exact)
  else (95/100, some .exact)

/-- Shared tail of `fuzzy_match`: combine amount and date confidence. -/
def fuzzyCombine (amount_diff date_confidence : ℚ) : ℚ × Option MatchType :=
  let amount_confidence := 1 - amount_diff * 10
  ((amount_confidence * (7/10) + date_confidence * (3/10)) * (85/100), some .fuzzy)

/-- The `amount_diff` local of `fuzzy_match`: relative amount difference,
with the degenerate value 1.0 for non-positive invoice amounts. -/
def fuzzyAmountDiff (txn : BankTransaction) (invoice : Invoice) : ℚ :=
  if invoice.amount > 0 then |txn.amount - invoice.amount| / invoice.amount else 1

/-- Model of `fuzzy_match`: amount within 1%, date within 5 days. -/
def fuzzy_match (txn : BankTransaction) (invoice : Invoice) : ℚ × Option MatchType :=
  let amount_diff : ℚ := fuzzyAmountDiff txn invoice
  if amount_diff > 1/100 then (0, none)
  else
    match invoice.invoice_date with
    | some d =>
        let date_diff : Int := |txn.date - d|
        if date_diff > 5 then (0, none)
        else fuzzyCombine amount_diff (max 0 (1 - ((date_diff : ℚ) / 5) * (2/10)))
    | none => fuzzyCombine amount_diff (1/2)

/-- Reference branch of `partial_payment_match`: the transaction reference
contains the invoice number (or its base before `-`/`_`), case-insensitively,
or conversely. -/
def partial_reference_match (txn : BankTransaction) (invoice : Invoice) : Bool :=
  strTruthy txn.reference && !invoice.invoice_number.data.isEmpty &&
    (let txn_ref_lower := lowerChars (txn.reference.getD "")
     let invoice_num_lower := lowerChars invoice.invoice_number
     let base_invoice_lower := (baseNumChars invoice.invoice_number).map Char.toLower
     pyInStr base_invoice_lower txn_ref_lower ||
       pyInStr invoice_num_lower txn_ref_lower ||
       pyInStr txn_ref_lower invoice_num_lower)

/-- Description branch of `partial_payment_match`: the transaction description
contains the invoice number (or its base before `-`/`_`), case-insensitively. -/
def partial_description_match (txn : BankTransaction) (invoice : Invoice) : Bool :=
  strTruthy txn.description && !invoice.invoice_number.data.isEmpty &&
    (let desc_lower := lowerChars (txn.description.getD "")
     let invoice_num_lower := lowerChars invoice.invoice_number
     let base_invoice_lower := (baseNumChars invoice.invoice_number).map Char.toLower
     pyInStr base_invoice_lower desc_lower || pyInStr invoice_num_lower desc_lower)

/-- Date-confidence factor of `partial_payment_match` (default 1.0; 0.7 for a
payment before the invoice date; decaying, floored at 0.5, when more than 90
days after). -/
def partialDateConfidence (txn : BankTransaction) (invoice : Invoice) : ℚ :=
  match invoice.invoice_date with
  | none => 1
  | some d0 =>
      let days_diff : Int := txn.date - d0
      if days_diff < 0 then 7/10
      else if days_diff > 90 then max (1/2) (1 - ((days_diff : ℚ) - 90) / 365 * (3/10))
      else 1

/-- The "common percentage" payment fractions checked by
`partial_payment_match` (source list `common_ratios`). -/
def common_payment_fractions : List ℚ :=
  [1/2, 6/10, 4/10, 3/10, 2/10, 7/10, 8/10, 1/4, 3/4, 33/100, 67/100]

/-- Model of `partial_payment_match`: reference/description contains the invoice
number and the transaction amount is strictly below the invoice amount.
The source's `amount_ratio` is called `amtFrac` here. -/
def partial_payment_match (txn : BankTransaction) (invoice : Invoice) : ℚ × Option MatchType :=
  let reference_match := partial_reference_match txn invoice
  let description_match := partial_description_match txn invoice
  if !(reference_match || description_match) then (0, none)
  else if txn.amount ≥ invoice.amount then (0, none)
  else
    let date_confidence := partialDateConfidence txn invoice
    let amtFrac : ℚ := if invoice.amount > 0 then txn.amount / invoice.amount else 0
    let fracMatch := common_payment_fractions.any (fun r => decide (|amtFrac - r| < 1/100))
    let amount_confidence : ℚ := if fracMatch then 9/10 else 3/4
    let ref_confidence : ℚ := if reference_match then 95/100 else
      if description_match then 85/100 else 0
    ((ref_confidence * (1/2) + amount_confidence * (3/10) + date_confidence * (1/5)) * (85/100),
     some .fuzzy)

/-! ## Database state

`DBState` models the durable tables touched by the engine plus the two
primary-key counters the database would assign on insert. -/

structure DBState where
  companies : List Nat
  transactions : List BankTransaction
  invoices : List Invoice
  reconciliations : List Reconciliation
  entries : List JournalEntry
  entry_lines : List JournalEntryLine
  nextReconciliationId : Nat
  nextEntryId : Nat
deriving DecidableEq, Repr

def findTransaction (s : DBState) (tid : Nat) : Option BankTransaction :=
  s.transactions.find? (fun t => t.transaction_id == tid)

def findInvoice (s : DBState) (iid : Nat) : Option Invoice :=
  s.invoices.find? (fun i => i.invoice_id == iid)

def findReconciliation (s : DBState) (rid : Nat) : Option Reconciliation :=
  s.reconciliations.find? (fun r => r.reconciliation_id == rid)

/-- In-place mutation of the first row matched by a query, as SQLAlchemy's
`query(...).first()` followed by attribute assignment does. -/
def updateFirst (p : α → Bool) (f : α → α) : List α → List α
  | [] => []
  | x :: xs => if p x then f x :: xs else x :: updateFirst p f xs

/-- The `total_reconciled` query: sum of the transaction amounts of all
settled reconciliations that reference the invoice (the join drops
reconciliations whose transaction does not exist; such rows contribute 0). -/
def settledSumForInvoice (s : DBState) (iid : Nat) : ℚ :=
  ((s.reconciliations.filter
      (fun r => r.invoice_id == iid && r.status == ReconciliationStatus.settled)).map
    (fun r => (((findTransaction s r.transaction_id).map (fun t => t.amount)).getD 0))).sum

/-- Model of `transaction.reference or str(transaction.transaction_id)` (an empty
reference string is falsy in Python). -/
def refOrId (txn : BankTransaction) : String :=
  match txn.reference with
  | some r => if r.data.isEmpty then toString txn.transaction_id else r
  | none => toString txn.transaction_id

/-- GST settlement account for the second credit line of a partial-payment
receipt: IGST Output, CGST/SGST Output, or Suspense. -/
def salesGstCode (invoice : Invoice) : String :=
  if invoice.igst_amount > 0 then "2310"
  else if invoice.cgst_amount > 0 || invoice.sgst_amount > 0 then "2320"
  else "9999"

/-- GST settlement account for the second credit line of a partial-payment
payment: IGST Input, CGST/SGST Input, or Suspense. -/
def purchaseGstCode (invoice : Invoice) : String :=
  if invoice.igst_amount > 0 then "2311"
  else if invoice.cgst_amount > 0 || invoice.sgst_amount > 0 then "2321"
  else "9999"

/-- Model of `create_journal_entry_from_reconciliation`: builds the journal entry and
its lines for a settlement.  The `reconciliation` argument of the source is
used only in a log message and is omitted; the buyer/vendor lookups only feed
the narration/account-name strings, which are not modelled. -/
def create_journal_entry_from_reconciliation (txn : BankTransaction) (invoice : Invoice)
    (entry_id : Nat) (is_partial_payment : Bool) : JournalEntry × List JournalEntryLine :=
  let entry_type : JournalEntryType :=
    if txn.type = .credit then .receipt else .payment
  let entry : JournalEntry :=
    { entry_id := entry_id, company_id := invoice.company_id, entry_type := entry_type,
      date := txn.date, reference := refOrId txn }
  let lines : List JournalEntryLine :=
    if txn.type = .credit then
      if is_partial_payment then
        let payment_fraction : ℚ :=
          if invoice.amount > 0 then txn.amount / invoice.amount else 1
        let principal_amount := invoice.taxable_amount * payment_fraction
        let remaining_amount := txn.amount - principal_amount
        [{ entry_id := entry_id, account_code := "1100", debit := txn.amount, credit := 0 },
         { entry_id := entry_id, account_code := "1200", debit := 0, credit := principal_amount }] ++
        (if remaining_amount > 1/100 then
          [{ entry_id := entry_id, account_code := salesGstCode invoice,
             debit := 0, credit := remaining_amount }]
         else [])
      else
        [{ entry_id := entry_id, account_code := "1100", debit := txn.amount, credit := 0 },
         { entry_id := entry_id, account_code := "1200", debit := 0, credit := txn.amount }]
    else
      if is_partial_payment then
        let payment_fraction : ℚ :=
          if invoice.amount > 0 then txn.amount / invoice.amount else 1
        let principal_amount := invoice.taxable_amount * payment_fraction
        let remaining_amount := txn.amount - principal_amount
        [{ entry_id := entry_id, account_code := "1100", debit := txn.amount, credit := 0 },
         { entry_id := entry_id, account_code := "2100", debit := 0, credit := principal_amount }] ++
        (if remaining_amount > 1/100 then
          [{ entry_id := entry_id, account_code := purchaseGstCode invoice,
             debit := 0, credit := remaining_amount }]
         else [])
      else
        [{ entry_id := entry_id, account_code := "1100", debit := txn.amount, credit := 0 },
         { entry_id := entry_id, account_code := "2100", debit := 0, credit := txn.amount }]
  (entry, lines)

/-! ## Settlement engine (`settle_reconciliation`) -/

/-- Model of `settle_reconciliation`: mark a reconciliation settled, update the
transaction and invoice, and post a journal entry unless one with the same
reference already exists for the company.  Failure cases that raise in
Python before any mutation (`ValueError`, attribute errors on a missing
related row) become `Except.error`.  The `.ok` state is the state committed
by `db.commit()`, which precedes the terminal `regenerate_csvs` call, and
the `.ok` reconciliation is the value the `return` statement would produce;
whether the call actually returns it or raises the `regenerate_csvs`
`TypeError` after the commit is tracked by `settle_reconciliation_outcome`
below. -/
def settle_reconciliation (s : DBState) (reconciliation_id : Nat) :
    Except String (DBState × Reconciliation) :=
  match findReconciliation s reconciliation_id with
  | none => .error "Reconciliation not found"
  | some reconciliation =>
    if reconciliation.status = .settled then .ok (s, reconciliation)
    else
      match findInvoice s reconciliation.invoice_id,
            findTransaction s reconciliation.transaction_id with
      | some invoice, some transaction =>
          let total_reconciled :=
            settledSumForInvoice s invoice.invoice_id + transaction.amount
          let is_partial_payment := invoice.amount - transaction.amount > 1/100
          let invoices' := updateFirst (fun i => i.invoice_id == invoice.invoice_id)
            (fun i =>
              if total_reconciled ≥ invoice.amount - 1/100 then { i with status := .paid }
              else if is_partial_payment then { i with status := .partially_paid }
              else i) s.invoices
          let transactions' := updateFirst
            (fun t => t.transaction_id == transaction.transaction_id)
            (fun t => { t with status := .settled }) s.transactions
          let reconciliations' := updateFirst
            (fun r => r.reconciliation_id == reconciliation_id)
            (fun r => { r with status := ReconciliationStatus.settled }) s.reconciliations
          let s1 := { s with invoices := invoices', transactions := transactions',
                             reconciliations := reconciliations' }
          let s2 :=
            match s.entries.find? (fun e =>
                e.reference == refOrId transaction && e.company_id == invoice.company_id) with
            | some _ => s1
            | none =>
                let (entry, lines) := create_journal_entry_from_reconciliation
                  transaction invoice s.nextEntryId is_partial_payment
                { s1 with entries := s1.entries ++ [entry],
                          entry_lines := s1.entry_lines ++ lines,
                          nextEntryId := s.nextEntryId + 1 }
          .ok (s2, { reconciliation with status := ReconciliationStatus.settled })
      | _, _ => .error "Reconciliation has no invoice or transaction"

/-! ## Raise channel of the terminal `regenerate_csvs` call -/

/-- Keyword parameters accepted by `report_generator.regenerate_csvs`, whose
definition is `def regenerate_csvs(user_id=None, description=None)`. -/
def regenerateCsvsParams : List String := ["user_id", "description"]

/-- Whether the calls `regenerate_csvs(company_id=company_id)` issued at the
end of `settle_reconciliation` and `reconcile_transactions` bind their
keyword argument.  `company_id` is not a parameter of `regenerate_csvs`, so
this is `false` and each such call raises `TypeError` at the call site,
after `db.commit()`. -/
def regenerate_csvs_accepts_company_id : Bool :=
  regenerateCsvsParams.contains "company_id"

/-- Model of a full `settle_reconciliation` call including its terminal
`regenerate_csvs(company_id=...)` call: the first component is the state the
call leaves committed, the second is `.ok` with the returned reconciliation
when the call returns normally and `.error` when it raises.  The early
return for an already-settled reconciliation happens before any mutation or
CSV call; on the effective path `db.commit()` precedes the CSV call, so the
committed state survives while the call raises `TypeError`. -/
def settle_reconciliation_outcome (s : DBState) (reconciliation_id : Nat) :
    DBState × Except String Reconciliation :=
  match findReconciliation s reconciliation_id with
  | none => (s, .error "Reconciliation not found")
  | some reconciliation =>
    if reconciliation.status = ReconciliationStatus.settled then (s, .ok reconciliation)
    else
      match settle_reconciliation s reconciliation_id with
      | .ok p =>
          if regenerate_csvs_accepts_company_id then (p.1, .ok p.2)
          else (p.1, .error "TypeError: regenerate_csvs() got an unexpected keyword argument")
      | .error e => (s, .error e)

/-! ## Reconciliation orchestrator (`reconcile_transactions`) -/

/-- One accepted match reported in the summary's `matches` list. -/
structure ReconMatch where
  transaction_id : Nat
  invoice_id : Nat
  match_type : MatchType
  confidence : ℚ
  auto_settled : Bool
deriving DecidableEq, Repr

/-- The dictionary returned by `reconcile_transactions`. -/
structure ReconcileSummary where
  total_transactions : Nat
  matches_found : Nat
  exact_matches : Nat
  fuzzy_matches : Nat
  auto_settled : Nat
  settled_existing : Nat
  -- source dictionary key "matches" (`matches` is a reserved word in Lean)
  matches_list : List ReconMatch
deriving DecidableEq, Repr

/-- The mutable best-so-far triple of the inner matching loop. -/
structure BestCandidate where
  best_match : Option Invoice
  best_confidence : ℚ
  match_type : Option MatchType
deriving DecidableEq, Repr

/-- Body of the inner `for invoice in pending_invoices` loop: direction
pre-filter, then exact, fuzzy (only when exact scored below 0.95) and
partial-payment (only when the best so far is below 0.85) strategies. -/
def considerInvoice (txn : BankTransaction) (acc : BestCandidate) (invoice : Invoice) :
    BestCandidate :=
  if txn.type = .credit ∧ invoice.invoice_type ≠ .sales then acc
  else if txn.type = .debit ∧ invoice.invoice_type ≠ .purchase then acc
  else
    let em := exact_match txn invoice
    let acc1 := if em.1 > acc.best_confidence then
        { best_match := some invoice, best_confidence := em.1, match_type := em.2 }
      else acc
    let acc2 := if em.1 < 95/100 then
        let fm := fuzzy_match txn invoice
        if fm.1 > acc1.best_confidence then
          { best_match := some invoice, best_confidence := fm.1, match_type := fm.2 }
        else acc1
      else acc1
    if acc2.best_confidence < 85/100 then
      let pm := partial_payment_match txn invoice
      if pm.1 > acc2.best_confidence then
        { best_match := some invoice, best_confidence := pm.1, match_type := pm.2 }
      else acc2
    else acc2

/-- Best-scoring invoice for one transaction over the loaded invoice snapshot. -/
def bestCandidateFor (txn : BankTransaction) (invoices : List Invoice) : BestCandidate :=
  invoices.foldl (considerInvoice txn) { best_match := none, best_confidence := 0, match_type := none }

/-- State mutation for one accepted match: create the settled reconciliation,
mark the transaction settled, set the invoice paid/partially-paid from the
recomputed `total_reconciled`, and post the journal entry. -/
def acceptMatch (s : DBState) (txn : BankTransaction) (invoice : Invoice)
    (confidence : ℚ) (mt : MatchType) : DBState :=
  let is_partial_payment := invoice.amount - txn.amount > 1/100
  let total_reconciled := settledSumForInvoice s invoice.invoice_id + txn.amount
  let reconciliation : Reconciliation :=
    { reconciliation_id := s.nextReconciliationId, transaction_id := txn.transaction_id,
      invoice_id := invoice.invoice_id, match_type := mt, match_confidence := confidence,
      status := ReconciliationStatus.settled }
  let transactions' := updateFirst (fun t => t.transaction_id == txn.transaction_id)
    (fun t => { t with status := .settled }) s.transactions
  let invoices' := updateFirst (fun i => i.invoice_id == invoice.invoice_id)
    (fun i =>
      if total_reconciled ≥ invoice.amount - 1/100 then { i with status := .paid }
      else if is_partial_payment then { i with status := .partially_paid }
      else i) s.invoices
  let (entry, lines) := create_journal_entry_from_reconciliation
    txn invoice s.nextEntryId is_partial_payment
  { s with transactions := transactions', invoices := invoices',
           reconciliations := s.reconciliations ++ [reconciliation],
           entries := s.entries ++ [entry], entry_lines := s.entry_lines ++ lines,
           nextReconciliationId := s.nextReconciliationId + 1,
           nextEntryId := s.nextEntryId + 1 }

/-- Body of the outer `for txn in unmatched_txns` loop.  The accumulator is
(state, matches, exact count, fuzzy count). -/
def processTxn (invoicesSnapshot : List Invoice)
    (acc : DBState × List ReconMatch × Nat × Nat) (txn : BankTransaction) :
    DBState × List ReconMatch × Nat × Nat :=
  let cand := bestCandidateFor txn invoicesSnapshot
  match cand.best_match, cand.match_type with
  | some invoice, some mt =>
      if cand.best_confidence ≥ 7/10 then
        let s' := acceptMatch acc.1 txn invoice cand.best_confidence mt
        let m : ReconMatch :=
          { transaction_id := txn.transaction_id, invoice_id := invoice.invoice_id,
            match_type := mt, confidence := cand.best_confidence, auto_settled := true }
        (s', acc.2.1 ++ [m],
         (if mt = .exact then acc.2.2.1 + 1 else acc.2.2.1),
         (if mt = .exact then acc.2.2.2 else acc.2.2.2 + 1))
      else acc
  | _, _ => acc

/-- One iteration of the pending sweep: the `try` block calls
`settle_reconciliation` and increments `settled_existing` only when that call
returns without raising; the `except` swallows the raise, keeping whatever
state the call committed before raising (in particular the post-commit
`regenerate_csvs` `TypeError` leaves the settlement committed but
uncounted). -/
def sweepStep (acc : DBState × Nat) (r : Reconciliation) : DBState × Nat :=
  match settle_reconciliation_outcome acc.1 r.reconciliation_id with
  | (s', .ok _) => (s', acc.2 + 1)
  | (s', .error _) => (s', acc.2)

/-- Post-loop sweep of reconciliations already in status `pending` for the
company; each is settled with `settle_reconciliation`, errors being caught
and the reconciliation skipped. -/
def sweepPending (s : DBState) (company_id : Nat) : DBState × Nat :=
  let pending := s.reconciliations.filter (fun r =>
    (((findTransaction s r.transaction_id).map
        (fun t => t.company_id == company_id)).getD false) &&
    r.status == ReconciliationStatus.pending)
  pending.foldl sweepStep (s, 0)

/-- Model of `reconcile_transactions company_id` (the explicit-company path; the
`company_id=None` fallback to the global current company lives in
`CompanyManager` and is outside the claims).  Returns the committed state
and the summary dictionary the `return` statement would produce.  When
`matches` is non-empty the source then raises the `regenerate_csvs`
`TypeError` instead of returning, after all state effects are committed;
the two early returns and the no-match run return normally. -/
def reconcile_transactions (s : DBState) (company_id : Nat) :
    Except String (DBState × ReconcileSummary) :=
  if ¬ s.companies.contains company_id then
    .error "Company not found"
  else
    let unmatched_txns := s.transactions.filter (fun t =>
      t.company_id == company_id && t.status == TransactionStatus.unmatched)
    let pending_invoices := s.invoices.filter (fun i =>
      i.company_id == company_id &&
      (i.status == InvoiceStatus.pending || i.status == InvoiceStatus.partially_paid))
    if unmatched_txns.isEmpty then
      .ok (s, { total_transactions := 0, matches_found := 0, exact_matches := 0,
                fuzzy_matches := 0, auto_settled := 0, settled_existing := 0, matches_list := [] })
    else if pending_invoices.isEmpty then
      .ok (s, { total_transactions := unmatched_txns.length, matches_found := 0,
                exact_matches := 0, fuzzy_matches := 0, auto_settled := 0,
                settled_existing := 0, matches_list := [] })
    else
      let r := unmatched_txns.foldl (processTxn pending_invoices) (s, [], 0, 0)
      let swept := sweepPending r.1 company_id
      .ok (swept.1,
        { total_transactions := unmatched_txns.length, matches_found := r.2.1.length,
          exact_matches := r.2.2.1, fuzzy_matches := r.2.2.2,
          auto_settled := r.2.1.length, settled_existing := swept.2, matches_list := r.2.1 })

/-- Model of `manual_settle`: reuse an existing reconciliation for the pair,
otherwise create a pending manual reconciliation with confidence 1.0 and
settle it.  As with `settle_reconciliation`, this is the committed-state and
return-value channel; `manual_settle_outcome` additionally tracks the
post-commit `regenerate_csvs` `TypeError`, which `manual_settle`
propagates (its `finally` block only closes the session). -/
def manual_settle (s : DBState) (transaction_id invoice_id : Nat) :
    Except String (DBState × Reconciliation) :=
  match s.reconciliations.find? (fun r =>
      r.transaction_id == transaction_id && r.invoice_id == invoice_id) with
  | some existing => settle_reconciliation s existing.reconciliation_id
  | none =>
      let reconciliation : Reconciliation :=
        { reconciliation_id := s.nextReconciliationId, transaction_id := transaction_id,
          invoice_id := invoice_id, match_type := .manual, match_confidence := 1,
          status := ReconciliationStatus.pending }
      let s' := { s with reconciliations := s.reconciliations ++ [reconciliation],
                         nextReconciliationId := s.nextReconciliationId + 1 }
      settle_reconciliation s' reconciliation.reconciliation_id

/-- Model of a full `manual_settle` call including the raise channel: it
delegates to `settle_reconciliation`, so an effective settlement commits its
state changes and then propagates the `regenerate_csvs` `TypeError`. -/
def manual_settle_outcome (s : DBState) (transaction_id invoice_id : Nat) :
    DBState × Except String Reconciliation :=
  match s.reconciliations.find? (fun r =>
      r.transaction_id == transaction_id && r.invoice_id == invoice_id) with
  | some existing => settle_reconciliation_outcome s existing.reconciliation_id
  | none =>
      let reconciliation : Reconciliation :=
        { reconciliation_id := s.nextReconciliationId, transaction_id := transaction_id,
          invoice_id := invoice_id, match_type := .manual, match_confidence := 1,
          status := ReconciliationStatus.pending }
      let s' := { s with reconciliations := s.reconciliations ++ [reconciliation],
                         nextReconciliationId := s.nextReconciliationId + 1 }
      settle_reconciliation_outcome s' reconciliation.reconciliation_id

/-- The database state after a `reconcile_transactions` call (unchanged when
the call raises). -/
def stateAfterReconcile (s : DBState) (company_id : Nat) : DBState :=
  match reconcile_transactions s company_id with
  | .ok p => p.1
  | .error _ => s

/-! ## Derived quantities used by the claims -/

/-- Total of the debit column of a list of journal-entry lines. -/
def entryDebitTotal (lines : List JournalEntryLine) : ℚ :=
  (lines.map (fun l => l.debit)).sum

/-- Total of the credit column of a list of journal-entry lines. -/
def entryCreditTotal (lines : List JournalEntryLine) : ℚ :=
  (lines.map (fun l => l.credit)).sum

/-- One engine call of the kinds the no-double-settlement property quantifies
over: a successful `reconcile_transactions` or `settle_reconciliation`
(manual settlement is deliberately not a step). -/
inductive EngineStep : DBState → DBState → Prop
  | reconcile (s : DBState) (cid : Nat) (out : DBState × ReconcileSummary) :
      reconcile_transactions s cid = .ok out → EngineStep s out.1
  | settle (s : DBState) (rid : Nat) (out : DBState × Reconciliation) :
      settle_reconciliation s rid = .ok out → EngineStep s out.1

/-- Invariant carried through `reconcile`/`settle` calls: every reconciliation
in the store is settled, no two reconciliations share a transaction, and every
transaction referenced by a reconciliation is itself settled. -/
def EngineInv (s : DBState) : Prop :=
  (∀ r ∈ s.reconciliations, r.status = ReconciliationStatus.settled) ∧
  (s.reconciliations.map (fun r => r.transaction_id)).Nodup ∧
  (∀ r ∈ s.reconciliations, ∀ t ∈ s.transactions,
     t.transaction_id = r.transaction_id → t.status = TransactionStatus.settled)

instance (s : DBState) : Decidable (EngineInv s) := by
  unfold EngineInv; infer_instance

/-- Well-formedness of the transaction table: primary keys are unique. -/
def TxnIdsNodup (s : DBState) : Prop :=
  (s.transactions.map (fun t => t.transaction_id)).Nodup

instance (s : DBState) : Decidable (TxnIdsNodup s) := by
  unfold TxnIdsNodup; infer_instance

/-! ## Relation tracing reconciliations across an operation

`ReconsTrace s s'` says every reconciliation present after an operation was
already present before it, up to the status flip performed by settlement
(same primary key and same stored confidence); it is how "the engine never
creates a low-confidence reconciliation" is separated from "the engine
settles a reconciliation that already existed". -/

def ReconsTrace (s s' : DBState) : Prop :=
  ∀ r ∈ s'.reconciliations, ∃ r0, r0 ∈ s.reconciliations ∧
    r0.reconciliation_id = r.reconciliation_id ∧ r0.match_confidence = r.match_confidence

/-! ## Concrete instances used to exercise the theorems -/

/-- C1 scenario: a sales invoice of 100.00 together with two identical credit
transactions of 100.00 on the invoice date. -/
def c1Invoice : Invoice :=
  { invoice_id := 1, company_id := 1, vendor_id := none, buyer_id := some 1,
    invoice_type := .sales, invoice_number := "", invoice_date := some 0,
    amount := 100, taxable_amount := 90, igst_amount := 10,
    cgst_amount := 0, sgst_amount := 0, status := .pending }

def c1TxnA : BankTransaction :=
  { transaction_id := 1, company_id := 1, date := 0, amount := 100,
    description := none, reference := none, type := .credit, status := .unmatched }

def c1TxnB : BankTransaction :=
  { transaction_id := 2, company_id := 1, date := 0, amount := 100,
    description := none, reference := none, type := .credit, status := .unmatched }

def c1State : DBState :=
  { companies := [1], transactions := [c1TxnA, c1TxnB], invoices := [c1Invoice],
    reconciliations := [], entries := [], entry_lines := [],
    nextReconciliationId := 1, nextEntryId := 1 }

/-- State after the first transaction of the C1 scenario is matched. -/
def c1Mid : DBState :=
  { companies := [1],
    transactions := [{ c1TxnA with status := .settled }, c1TxnB],
    invoices := [{ c1Invoice with status := .paid }],
    reconciliations := [{ reconciliation_id := 1, transaction_id := 1, invoice_id := 1,
                          match_type := .exact, match_confidence := 19/20, status := .settled }],
    entries := [{ entry_id := 1, company_id := 1, entry_type := .receipt, date := 0,
                  reference := "1" }],
    entry_lines := [{ entry_id := 1, account_code := "1100", debit := 100, credit := 0 },
                    { entry_id := 1, account_code := "1200", debit := 0, credit := 100 }],
    nextReconciliationId := 2, nextEntryId := 2 }

/-- Final state of the C1 scenario: both transactions settled against the one
invoice, 200.00 settled in total against an invoice of 100.00. -/
def c1Final : DBState :=
  { companies := [1],
    transactions := [{ c1TxnA with status := .settled }, { c1TxnB with status := .settled }],
    invoices := [{ c1Invoice with status := .paid }],
    reconciliations := [{ reconciliation_id := 1, transaction_id := 1, invoice_id := 1,
                          match_type := .exact, match_confidence := 19/20, status := .settled },
                        { reconciliation_id := 2, transaction_id := 2, invoice_id := 1,
                          match_type := .exact, match_confidence := 19/20, status := .settled }],
    entries := [{ entry_id := 1, company_id := 1, entry_type := .receipt, date := 0,
                  reference := "1" },
                { entry_id := 2, company_id := 1, entry_type := .receipt, date := 0,
                  reference := "2" }],
    entry_lines := [{ entry_id := 1, account_code := "1100", debit := 100, credit := 0 },
                    { entry_id := 1, account_code := "1200", debit := 0, credit := 100 },
                    { entry_id := 2, account_code := "1100", debit := 100, credit := 0 },
                    { entry_id := 2, account_code := "1200", debit := 0, credit := 100 }],
    nextReconciliationId := 3, nextEntryId := 3 }

/-- C6 scenario data: spec partial-payment scenario (invoice 10000.00, taxable
8475, IGST 1525; credit transaction 5000.00 whose reference contains the
invoice number). -/
def c6Invoice : Invoice :=
  { invoice_id := 1, company_id := 1, vendor_id := none, buyer_id := some 1,
    invoice_type := .sales, invoice_number := "INV1", invoice_date := some 0,
    amount := 10000, taxable_amount := 8475, igst_amount := 1525,
    cgst_amount := 0, sgst_amount := 0, status := .pending }

def c6Txn : BankTransaction :=
  { transaction_id := 1, company_id := 1, date := 10, amount := 5000,
    description := none, reference := some "INV1-P1", type := .credit,
    status := .unmatched }

def c6State : DBState :=
  { companies := [1], transactions := [c6Txn], invoices := [c6Invoice],
    reconciliations := [], entries := [], entry_lines := [],
    nextReconciliationId := 1, nextEntryId := 1 }

/-- Final state of the C6 scenario: three-line receipt entry and a
partially-paid invoice. -/
def c6Final : DBState :=
  { companies := [1],
    transactions := [{ c6Txn with status := .settled }],
    invoices := [{ c6Invoice with status := .partially_paid }],
    reconciliations := [{ reconciliation_id := 1, transaction_id := 1, invoice_id := 1,
                          match_type := .fuzzy, match_confidence := 3213/4000,
                          status := .settled }],
    entries := [{ entry_id := 1, company_id := 1, entry_type := .receipt, date := 10,
                  reference := "INV1-P1" }],
    entry_lines := [{ entry_id := 1, account_code := "1100", debit := 5000, credit := 0 },
                    { entry_id := 1, account_code := "1200", debit := 0, credit := 8475/2 },
                    { entry_id := 1, account_code := "2310", debit := 0, credit := 1525/2 }],
    nextReconciliationId := 2, nextEntryId := 2 }

/-- C2 witness data: the partial-payment entry of the C6 scenario amounts. -/
def c2WInvoice : Invoice :=
  { invoice_id := 3, company_id := 2, vendor_id := some 4, buyer_id := none,
    invoice_type := .purchase, invoice_number := "77", invoice_date := some 0,
    amount := 10000, taxable_amount := 8475, igst_amount := 1525,
    cgst_amount := 0, sgst_amount := 0, status := .pending }

def c2WTxn : BankTransaction :=
  { transaction_id := 9, company_id := 2, date := 4, amount := 5000,
    description := none, reference := some "77", type := .debit, status := .unmatched }

/-- C3 witness state: one already-settled transaction covered by one settled
reconciliation; a reconcile call finds nothing unmatched. -/
def c3WState : DBState :=
  { companies := [1],
    transactions := [{ transaction_id := 1, company_id := 1, date := 0, amount := 50,
                       description := none, reference := none, type := .credit,
                       status := .settled }],
    invoices := [],
    reconciliations := [{ reconciliation_id := 1, transaction_id := 1, invoice_id := 1,
                          match_type := .manual, match_confidence := 1, status := .settled }],
    entries := [], entry_lines := [], nextReconciliationId := 2, nextEntryId := 1 }

/-- C4 witness data: the spec exact-match scenario (11800.00 on both sides,
equal dates, no reference overlap). -/
def c4WInvoice : Invoice :=
  { invoice_id := 1, company_id := 1, vendor_id := none, buyer_id := some 1,
    invoice_type := .sales, invoice_number := "", invoice_date := some 5,
    amount := 11800, taxable_amount := 10000, igst_amount := 1800,
    cgst_amount := 0, sgst_amount := 0, status := .pending }

def c4WTxn : BankTransaction :=
  { transaction_id := 7, company_id := 1, date := 5, amount := 11800,
    description := none, reference := none, type := .credit, status := .unmatched }

def c4WState : DBState :=
  { companies := [1], transactions := [c4WTxn], invoices := [c4WInvoice],
    reconciliations := [], entries := [], entry_lines := [],
    nextReconciliationId := 5, nextEntryId := 3 }

def c4WFinal : DBState :=
  { companies := [1],
    transactions := [{ c4WTxn with status := .settled }],
    invoices := [{ c4WInvoice with status := .paid }],
    reconciliations := [{ reconciliation_id := 5, transaction_id := 7, invoice_id := 1,
                          match_type := .exact, match_confidence := 19/20,
                          status := .settled }],
    entries := [{ entry_id := 3, company_id := 1, entry_type := .receipt, date := 5,
                  reference := "7" }],
    entry_lines := [{ entry_id := 3, account_code := "1100", debit := 11800, credit := 0 },
                    { entry_id := 3, account_code := "1200", debit := 0, credit := 11800 }],
    nextReconciliationId := 6, nextEntryId := 4 }

/-- C5 witness data: a pending manual reconciliation over a full payment. -/
def c5WInvoice : Invoice :=
  { invoice_id := 1, company_id := 1, vendor_id := none, buyer_id := some 1,
    invoice_type := .sales, invoice_number := "", invoice_date := some 0,
    amount := 100, taxable_amount := 90, igst_amount := 10,
    cgst_amount := 0, sgst_amount := 0, status := .pending }

def c5WTxn : BankTransaction :=
  { transaction_id := 1, company_id := 1, date := 0, amount := 100,
    description := none, reference := none, type := .credit, status := .unmatched }

def c5WState : DBState :=
  { companies := [1], transactions := [c5WTxn], invoices := [c5WInvoice],
    reconciliations := [{ reconciliation_id := 1, transaction_id := 1, invoice_id := 1,
                          match_type := .manual, match_confidence := 1, status := .pending }],
    entries := [], entry_lines := [], nextReconciliationId := 2, nextEntryId := 1 }

def c5WFinal : DBState :=
  { companies := [1],
    transactions := [{ c5WTxn with status := .settled }],
    invoices := [{ c5WInvoice with status := .paid }],
    reconciliations := [{ reconciliation_id := 1, transaction_id := 1, invoice_id := 1,
                          match_type := .manual, match_confidence := 1, status := .settled }],
    entries := [{ entry_id := 1, company_id := 1, entry_type := .receipt, date := 0,
                  reference := "1" }],
    entry_lines := [{ entry_id := 1, account_code := "1100", debit := 100, credit := 0 },
                    { entry_id := 1, account_code := "1200", debit := 0, credit := 100 }],
    nextReconciliationId := 2, nextEntryId := 2 }

/-- C8 data: a payment 91 days after the invoice date. -/
def c8Txn : BankTransaction :=
  { transaction_id := 1, company_id := 1, date := 91, amount := 500,
    description := none, reference := some "88", type := .credit, status := .unmatched }

def c8Invoice : Invoice :=
  { invoice_id := 1, company_id := 1, vendor_id := none, buyer_id := some 1,
    invoice_type := .sales, invoice_number := "88", invoice_date := some 0,
    amount := 1000, taxable_amount := 1000, igst_amount := 0,
    cgst_amount := 0, sgst_amount := 0, status := .pending }

/-- C9 witness data: equal amounts and equal dates, fuzzy-eligible. -/
def c9WTxn : BankTransaction :=
  { transaction_id := 1, company_id := 1, date := 3, amount := 500,
    description := none, reference := none, type := .credit, status := .unmatched }

def c9WInvoice : Invoice :=
  { invoice_id := 1, company_id := 1, vendor_id := none, buyer_id := some 1,
    invoice_type := .sales, invoice_number := "", invoice_date := some 3,
    amount := 500, taxable_amount := 500, igst_amount := 0,
    cgst_amount := 0, sgst_amount := 0, status := .pending }

/-- C10 witness state: transaction 1 is already settled against invoice 1 via
a settled reconciliation; invoice 2 exists and has no reconciliation. -/
def c10WTxn : BankTransaction :=
  { transaction_id := 1, company_id := 1, date := 0, amount := 100,
    description := none, reference := none, type := .credit, status := .settled }

def c10WInv1 : Invoice :=
  { invoice_id := 1, company_id := 1, vendor_id := none, buyer_id := some 1,
    invoice_type := .sales, invoice_number := "", invoice_date := some 0,
    amount := 100, taxable_amount := 100, igst_amount := 0,
    cgst_amount := 0, sgst_amount := 0, status := .paid }

def c10WInv2 : Invoice :=
  { invoice_id := 2, company_id := 1, vendor_id := none, buyer_id := some 1,
    invoice_type := .sales, invoice_number := "", invoice_date := some 0,
    amount := 300, taxable_amount := 300, igst_amount := 0,
    cgst_amount := 0, sgst_amount := 0, status := .pending }

def c10WRecon : Reconciliation :=
  { reconciliation_id := 1, transaction_id := 1, invoice_id := 1,
    match_type := .manual, match_confidence := 1, status := .settled }

def c10WState : DBState :=
  { companies := [1], transactions := [c10WTxn], invoices := [c10WInv1, c10WInv2],
    reconciliations := [c10WRecon], entries := [], entry_lines := [],
    nextReconciliationId := 2, nextEntryId := 1 }

/-- Matches reported by the concrete runs. -/
def c1M1 : ReconMatch :=
  { transaction_id := 1, invoice_id := 1, match_type := .exact, confidence := 19/20,
    auto_settled := true }

def c1M2 : ReconMatch :=
  { transaction_id := 2, invoice_id := 1, match_type := .exact, confidence := 19/20,
    auto_settled := true }

def c6M : ReconMatch :=
  { transaction_id := 1, invoice_id := 1, match_type := .fuzzy, confidence := 3213/4000,
    auto_settled := true }

def c4WM : ReconMatch :=
  { transaction_id := 7, invoice_id := 1, match_type := .exact, confidence := 19/20,
    auto_settled := true }

/-! ## Helper lemmas on `updateFirst` and friends -/

theorem mem_updateFirst {α : Type} {p : α → Bool} {f : α → α} {l : List α} {a : α} :
    a ∈ updateFirst p f l → a ∈ l ∨ ∃ b, b ∈ l ∧ p b = true ∧ a = f b := by
  induction l with
  | nil => intro h; simp [updateFirst] at h
  | cons x xs ih =>
      intro h
      by_cases hx : p x
      · simp only [updateFirst, if_pos hx] at h
        rcases List.mem_cons.mp h with h | h
        · exact Or.inr ⟨x, by simp, hx, h⟩
        · exact Or.inl (List.mem_cons_of_mem _ h)
      · simp only [updateFirst, if_neg hx] at h
        rcases List.mem_cons.mp h with h | h
        · exact Or.inl (by simp [h])
        · rcases ih h with h' | ⟨b, hb, hpb, hab⟩
          · exact Or.inl (List.mem_cons_of_mem _ h')
          · exact Or.inr ⟨b, List.mem_cons_of_mem _ hb, hpb, hab⟩

theorem map_updateFirst {α β : Type} {p : α → Bool} {f : α → α} {g : α → β}
    (hg : ∀ a, g (f a) = g a) (l : List α) :
    (updateFirst p f l).map g = l.map g := by
  induction l with
  | nil => rfl
  | cons x xs ih =>
      by_cases hx : p x
      · simp [updateFirst, if_pos hx, hg]
      · simp [updateFirst, if_neg hx, ih]

theorem find?_updateFirst {α : Type} {p : α → Bool} {f : α → α}
    (hf : ∀ a, p a = true → p (f a) = true) (l : List α) :
    (updateFirst p f l).find? p = (l.find? p).map f := by
  induction l with
  | nil => rfl
  | cons x xs ih =>
      by_cases hx : p x
      · simp [updateFirst, if_pos hx, List.find?_cons_of_pos, hx, hf x hx]
      · simp [updateFirst, if_neg hx, List.find?_cons_of_neg, hx, ih]

theorem updateFirst_append_left {α : Type} {p : α → Bool} {f : α → α}
    {l₁ : List α} (l₂ : List α) (h : ∀ x ∈ l₁, p x = false) :
    updateFirst p f (l₁ ++ l₂) = l₁ ++ updateFirst p f l₂ := by
  induction l₁ with
  | nil => rfl
  | cons x xs ih =>
      have hx : p x = false := h x (by simp)
      simp only [List.cons_append, updateFirst, hx]
      simp only [Bool.false_eq_true, if_false, List.cons.injEq, true_and]
      exact ih (fun y hy => h y (List.mem_cons_of_mem _ hy))

theorem find?_append_left {α : Type} {p : α → Bool}
    {l₁ : List α} (l₂ : List α) (h : ∀ x ∈ l₁, p x = false) :
    (l₁ ++ l₂).find? p = l₂.find? p := by
  induction l₁ with
  | nil => rfl
  | cons x xs ih =>
      have hx : p x = false := h x (by simp)
      rw [List.cons_append, List.find?_cons]
      simp only [hx]
      exact ih (fun y hy => h y (List.mem_cons_of_mem _ hy))

/-! ## Composition lemmas for concrete runs -/

theorem reconcile_transactions_run (s : DBState) (cid : Nat)
    (txns : List BankTransaction) (invs : List Invoice)
    (out1 : DBState) (ms : List ReconMatch) (ec fc : Nat) (sw : DBState) (n : Nat)
    (hc : s.companies.contains cid = true)
    (ht : s.transactions.filter
        (fun t => t.company_id == cid && t.status == TransactionStatus.unmatched) = txns)
    (hi : s.invoices.filter (fun i => i.company_id == cid &&
        (i.status == InvoiceStatus.pending || i.status == InvoiceStatus.partially_paid)) = invs)
    (hne : txns.isEmpty = false) (hni : invs.isEmpty = false)
    (hfold : txns.foldl (processTxn invs) (s, [], 0, 0) = (out1, ms, ec, fc))
    (hsweep : sweepPending out1 cid = (sw, n)) :
    reconcile_transactions s cid = .ok (sw,
      { total_transactions := txns.length, matches_found := ms.length,
        exact_matches := ec, fuzzy_matches := fc, auto_settled := ms.length,
        settled_existing := n, matches_list := ms }) := by
  unfold reconcile_transactions
  rw [hc, ht, hi]
  simp only [hne, hni, not_true, Bool.false_eq_true, if_false, hfold, hsweep]

theorem processTxn_accept (invs : List Invoice) (txn : BankTransaction)
    (s : DBState) (ms : List ReconMatch) (ec fc : Nat)
    (inv : Invoice) (conf : ℚ) (mt : MatchType)
    (hbest : bestCandidateFor txn invs =
      { best_match := some inv, best_confidence := conf, match_type := some mt })
    (hconf : conf ≥ 7/10) :
    processTxn invs (s, ms, ec, fc) txn =
      (acceptMatch s txn inv conf mt,
       ms ++ [{ transaction_id := txn.transaction_id, invoice_id := inv.invoice_id,
                match_type := mt, confidence := conf, auto_settled := true }],
       (if mt = .exact then ec + 1 else ec),
       (if mt = .exact then fc else fc + 1)) := by
  unfold processTxn
  rw [hbest]
  simp only [if_pos hconf]

/-! ## Structure of `fuzzy_match` -/

theorem fuzzyCombine_fst (ad dc : ℚ) :
    (fuzzyCombine ad dc).1 = ((1 - ad * 10) * (7/10) + dc * (3/10)) * (85/100) := rfl

/-- Case analysis of `fuzzy_match`: either the pair is rejected outright, or
the confidence is `fuzzyCombine` of a relative amount difference in
`[0, 1/100]` and a date confidence in `[0, 1]` that is at least `8/10` when
the invoice has a date and exactly `1/2` when it does not. -/
theorem fuzzyAmountDiff_nonneg (txn : BankTransaction) (invoice : Invoice) :
    0 ≤ fuzzyAmountDiff txn invoice := by
  unfold fuzzyAmountDiff
  split_ifs with h
  · exact div_nonneg (abs_nonneg _) h.le
  · norm_num

theorem fuzzy_match_cases (txn : BankTransaction) (invoice : Invoice) :
    fuzzy_match txn invoice = (0, none) ∨
    ∃ ad dc : ℚ, 0 ≤ ad ∧ ad ≤ 1/100 ∧ 0 ≤ dc ∧ dc ≤ 1 ∧
      fuzzy_match txn invoice = fuzzyCombine ad dc ∧
      ((invoice.invoice_date ≠ none ∧ 8/10 ≤ dc) ∨ (invoice.invoice_date = none ∧ dc = 1/2)) := by
  have had := fuzzyAmountDiff_nonneg txn invoice
  simp only [fuzzy_match]
  by_cases h1 : fuzzyAmountDiff txn invoice > 1/100
  · rw [if_pos h1]
    exact Or.inl rfl
  · rw [if_neg h1]
    push_neg at h1
    cases hd : invoice.invoice_date with
    | none =>
        dsimp only
        exact Or.inr ⟨_, 1/2, had, h1, by norm_num, by norm_num, rfl, Or.inr ⟨rfl, rfl⟩⟩
    | some d =>
        dsimp only
        by_cases h2 : |txn.date - d| > 5
        · rw [if_pos h2]
          exact Or.inl rfl
        · rw [if_neg h2]
          push_neg at h2
          refine Or.inr ⟨_, _, had, h1, le_max_left _ _, ?_, rfl, Or.inl ⟨by simp [hd], ?_⟩⟩
          · apply max_le (by norm_num)
            have : (0:ℚ) ≤ ((|txn.date - d| : Int) : ℚ) / 5 * (2/10) := by positivity
            linarith
          · have h5 : ((|txn.date - d| : Int) : ℚ) ≤ 5 := by exact_mod_cast h2
            have hc0 : (0:ℚ) ≤ ((|txn.date - d| : Int) : ℚ) := by
              exact_mod_cast abs_nonneg (txn.date - d)
            have : ((|txn.date - d| : Int) : ℚ) / 5 * (2/10) ≤ 2/10 := by linarith
            have h8 : (8:ℚ)/10 ≤ 1 - ((|txn.date - d| : Int) : ℚ) / 5 * (2/10) := by linarith
            exact le_trans h8 (le_max_right _ _)

/-- C7: for every transaction/invoice pair, `fuzzy_match` returns a
confidence that is at most 0.85 — hence strictly below 0.95 — so a fuzzy
match can never outrank an exact match (0.95 or 0.98) on the same pair. -/
theorem C7_fuzzy_confidence_cap (txn : BankTransaction) (invoice : Invoice) :
    (fuzzy_match txn invoice).1 ≤ 85/100 ∧ (fuzzy_match txn invoice).1 < 95/100 := by
  have key : (fuzzy_match txn invoice).1 ≤ 85/100 := by
    rcases fuzzy_match_cases txn invoice with h | ⟨ad, dc, had, _, _, hdc1, heq, _⟩
    · rw [h]; norm_num
    · rw [heq, fuzzyCombine_fst]
      nlinarith [had, hdc1]
  exact ⟨key, lt_of_le_of_lt key (by norm_num)⟩

/-- C9: every pair that `fuzzy_match` does not reject scores at least
0.7395 = (0.9*0.7 + 0.8*0.3)*0.85 when the invoice has a date — always
clearing the 0.70 settlement gate — and at least 0.663 when it has none. -/
theorem C9_fuzzy_eligible_lower_bound (txn : BankTransaction) (invoice : Invoice)
    (h : (fuzzy_match txn invoice).2 = some MatchType.fuzzy) :
    (invoice.invoice_date ≠ none →
       7395/10000 ≤ (fuzzy_match txn invoice).1 ∧ 7/10 ≤ (fuzzy_match txn invoice).1) ∧
    (invoice.invoice_date = none → 663/1000 ≤ (fuzzy_match txn invoice).1) := by
  rcases fuzzy_match_cases txn invoice with hr | ⟨ad, dc, had, had1, hdc0, hdc1, heq, hdate⟩
  · rw [hr] at h; cases h
  · constructor
    · intro hdne
      rcases hdate with ⟨_, hdc8⟩ | ⟨hnone, _⟩
      · rw [heq, fuzzyCombine_fst]
        constructor <;> nlinarith [had, had1, hdc8, hdc1]
      · exact absurd hnone hdne
    · intro hdn
      rcases hdate with ⟨hne, _⟩ | ⟨_, hdc'⟩
      · exact absurd hdn hne
      · rw [heq, fuzzyCombine_fst, hdc']
        nlinarith [had, had1]

/-- Witness for C9: equal amounts and dates give a fuzzy-eligible pair, and
the bound from the theorem applies. -/
theorem C9_fuzzy_eligible_lower_bound_witness :
    (fuzzy_match c9WTxn c9WInvoice).2 = some MatchType.fuzzy ∧
    7/10 ≤ (fuzzy_match c9WTxn c9WInvoice).1 := by
  have h : (fuzzy_match c9WTxn c9WInvoice).2 = some MatchType.fuzzy := by
    norm_num [fuzzy_match, fuzzyAmountDiff, fuzzyCombine, c9WTxn, c9WInvoice]
  exact ⟨h, ((C9_fuzzy_eligible_lower_bound c9WTxn c9WInvoice h).1 (by simp [c9WInvoice])).2⟩

/-- Counterexample for C8: a payment 91 days after the invoice date gets
date-confidence 3647/3650 ≈ 0.99918, which is not below 0.7 — the claim's
"decays below 0.7" is wrong just past the 90-day mark. -/
theorem C8_counterexample_91_days :
    90 < c8Txn.date - 0 ∧
    partialDateConfidence c8Txn c8Invoice = 3647/3650 ∧
    ¬ partialDateConfidence c8Txn c8Invoice < 7/10 := by
  refine ⟨by norm_num [c8Txn], ?_, ?_⟩ <;>
    norm_num [partialDateConfidence, c8Txn, c8Invoice]

/-- C8 as amended: the date factor is 0.7 for payments before the invoice
date, 1.0 up to 90 days after it, and for later payments
`max 0.5 (1 - (days-90)/365 * 0.3)` — a linear decay that starts just below
1.0, crosses 0.7 only about a year past the 90-day mark, and is floored at
0.5. -/
theorem C8_partial_date_confidence_amended (txn : BankTransaction) (invoice : Invoice)
    (d0 : Int) (hd : invoice.invoice_date = some d0) :
    (txn.date - d0 < 0 → partialDateConfidence txn invoice = 7/10) ∧
    (0 ≤ txn.date - d0 → txn.date - d0 ≤ 90 → partialDateConfidence txn invoice = 1) ∧
    (90 < txn.date - d0 → partialDateConfidence txn invoice =
      max (1/2) (1 - (((txn.date - d0 : Int) : ℚ) - 90) / 365 * (3/10))) := by
  unfold partialDateConfidence
  rw [hd]
  dsimp only
  refine ⟨fun h => ?_, fun h0 h90 => ?_, fun h => ?_⟩
  · rw [if_pos h]
  · rw [if_neg (by omega), if_neg (by omega)]
  · rw [if_neg (by omega), if_pos h]

/-- Witness for the amended C8 at 91 days late. -/
theorem C8_partial_date_confidence_amended_witness :
    partialDateConfidence c8Txn c8Invoice =
      max (1/2) (1 - (((c8Txn.date - 0 : Int) : ℚ) - 90) / 365 * (3/10)) :=
  (C8_partial_date_confidence_amended c8Txn c8Invoice 0 rfl).2.2 (by norm_num [c8Txn])

/-- C2: every journal entry produced by settlement posting balances to within
0.01, for full and partial payments, receipts and payments, and all GST
allocation branches — assuming the invoice data is sane (positive total,
taxable part not exceeding the total) and the transaction amount is
non-negative. -/
theorem C2_journal_entry_balanced (txn : BankTransaction) (invoice : Invoice)
    (entry_id : Nat) (is_partial_payment : Bool)
    (hpos : 0 < invoice.amount) (htax : invoice.taxable_amount ≤ invoice.amount)
    (hamt : 0 ≤ txn.amount) :
    |entryDebitTotal
        (create_journal_entry_from_reconciliation txn invoice entry_id is_partial_payment).2 -
      entryCreditTotal
        (create_journal_entry_from_reconciliation txn invoice entry_id is_partial_payment).2| ≤
      1/100 := by
  have hkey : invoice.taxable_amount * (txn.amount / invoice.amount) ≤ txn.amount := by
    have h1 := mul_le_mul_of_nonneg_right htax (div_nonneg hamt hpos.le)
    have h2 : invoice.amount * (txn.amount / invoice.amount) = txn.amount := by
      field_simp
    linarith
  simp only [create_journal_entry_from_reconciliation, entryDebitTotal, entryCreditTotal]
  split_ifs with h1 h2 h3 h4 h5 <;>
    simp only [List.map_append, List.map_cons, List.map_nil, List.sum_append,
      List.sum_cons, List.sum_nil]
  all_goals rw [abs_le]
  all_goals constructor <;> push_neg at * <;> linarith

/-- Witness for C2: the partial-payment purchase entry of the scenario
amounts balances exactly. -/
theorem C2_journal_entry_balanced_witness :
    0 < c2WInvoice.amount ∧ c2WInvoice.taxable_amount ≤ c2WInvoice.amount ∧
    0 ≤ c2WTxn.amount ∧
    |entryDebitTotal
        (create_journal_entry_from_reconciliation c2WTxn c2WInvoice 1 true).2 -
      entryCreditTotal
        (create_journal_entry_from_reconciliation c2WTxn c2WInvoice 1 true).2| ≤ 1/100 :=
  ⟨by norm_num [c2WInvoice], by norm_num [c2WInvoice], by norm_num [c2WTxn],
   C2_journal_entry_balanced c2WTxn c2WInvoice 1 true (by norm_num [c2WInvoice])
     (by norm_num [c2WInvoice]) (by norm_num [c2WTxn])⟩

/-- C6: the spec's partial-payment scenario.  The pair is eligible for the
partial-payment strategy with the 0.5 common ratio (confidence
0.80325 = (0.95*0.5 + 0.9*0.3 + 1.0*0.2)*0.85), and the run posts a
three-line receipt entry — debit Bank 5000, credit Debtors 4237.50, credit
IGST Output (Settlement) 762.50 — and leaves the invoice partially paid. -/
theorem C6_partial_payment_scenario :
    partial_payment_match c6Txn c6Invoice = (3213/4000, some MatchType.fuzzy) ∧
    reconcile_transactions c6State 1 = .ok (c6Final,
      { total_transactions := 1, matches_found := 1, exact_matches := 0, fuzzy_matches := 1,
        auto_settled := 1, settled_existing := 0, matches_list := [c6M] }) ∧
    c6Final.entry_lines =
      [{ entry_id := 1, account_code := "1100", debit := 5000, credit := 0 },
       { entry_id := 1, account_code := "1200", debit := 0, credit := 4237.5 },
       { entry_id := 1, account_code := "2310", debit := 0, credit := 762.5 }] ∧
    (c6Final.entries.map (fun e => e.entry_type)) = [JournalEntryType.receipt] ∧
    (c6Final.invoices.map (fun i => i.status)) = [InvoiceStatus.partially_paid] := by
  have hmatch : partial_payment_match c6Txn c6Invoice = (3213/4000, some MatchType.fuzzy) := by
    norm_num [partial_payment_match, partial_reference_match, partial_description_match,
      partialDateConfidence, common_payment_fractions, strTruthy, lowerChars, pyInStr,
      baseNumChars, c6Txn, c6Invoice]
  have hbest : bestCandidateFor c6Txn [c6Invoice] =
      { best_match := some c6Invoice, best_confidence := 3213/4000,
        match_type := some MatchType.fuzzy } := by
    norm_num [bestCandidateFor, considerInvoice, exact_match, exactDateReject, fuzzy_match,
      fuzzyAmountDiff, fuzzyCombine, partial_payment_match, partial_reference_match,
      partial_description_match, partialDateConfidence, common_payment_fractions, strTruthy,
      lowerChars, pyInStr, baseNumChars, List.foldl, c6Txn, c6Invoice]
    decide
  have haccept : acceptMatch c6State c6Txn c6Invoice (3213/4000) MatchType.fuzzy = c6Final := by
    norm_num [acceptMatch, settledSumForInvoice, findTransaction, updateFirst,
      create_journal_entry_from_reconciliation, refOrId, salesGstCode, purchaseGstCode,
      List.filter, List.find?, c6Txn, c6Invoice, c6State, c6Final]
  have hproc : processTxn [c6Invoice] (c6State, [], 0, 0) c6Txn = (c6Final, [c6M], 0, 1) := by
    rw [processTxn_accept [c6Invoice] c6Txn c6State [] 0 0 c6Invoice (3213/4000)
      MatchType.fuzzy hbest (by norm_num), haccept]
    simp [c6M, c6Txn, c6Invoice]
  have hfold : [c6Txn].foldl (processTxn [c6Invoice]) (c6State, [], 0, 0) =
      (c6Final, [c6M], 0, 1) := by
    rw [List.foldl_cons, hproc, List.foldl_nil]
  have hsweep : sweepPending c6Final 1 = (c6Final, 0) := by
    norm_num [sweepPending, sweepStep, findTransaction, List.filter, List.find?, List.foldl,
      c6Final, c6Txn]
  have hrun := reconcile_transactions_run c6State 1 [c6Txn] [c6Invoice] c6Final [c6M] 0 1
    c6Final 0 (by decide) (by decide) (by decide) (by decide) (by decide) hfold hsweep
  refine ⟨hmatch, hrun, by norm_num [c6Final], rfl, rfl⟩

/-- C1 is violated by the code: with two identical 100.00 credit transactions
and a single 100.00 invoice, one `reconcile` run settles both against the
same invoice — the second is matched even though the first has already fully
paid the invoice — so the settled total 200.00 exceeds
`invoice.amount + 0.01`. -/
theorem C1_no_overpayment_violated :
    reconcile_transactions c1State 1 = .ok (c1Final,
      { total_transactions := 2, matches_found := 2, exact_matches := 2, fuzzy_matches := 0,
        auto_settled := 2, settled_existing := 0, matches_list := [c1M1, c1M2] }) ∧
    settledSumForInvoice c1Final 1 = 200 ∧
    c1Invoice.amount + 1/100 < settledSumForInvoice c1Final 1 ∧
    (∀ r ∈ c1Final.reconciliations, r.status = ReconciliationStatus.settled ∧ r.invoice_id = 1) := by
  have hbestA : bestCandidateFor c1TxnA [c1Invoice] =
      { best_match := some c1Invoice, best_confidence := 19/20,
        match_type := some MatchType.exact } := by
    norm_num [bestCandidateFor, considerInvoice, exact_match, exactDateReject, fuzzy_match,
      fuzzyAmountDiff, fuzzyCombine, partial_payment_match, partial_reference_match,
      partial_description_match, partialDateConfidence, common_payment_fractions, strTruthy,
      lowerChars, pyInStr, baseNumChars, List.foldl, c1TxnA, c1Invoice]
    decide
  have hbestB : bestCandidateFor c1TxnB [c1Invoice] =
      { best_match := some c1Invoice, best_confidence := 19/20,
        match_type := some MatchType.exact } := by
    norm_num [bestCandidateFor, considerInvoice, exact_match, exactDateReject, fuzzy_match,
      fuzzyAmountDiff, fuzzyCombine, partial_payment_match, partial_reference_match,
      partial_description_match, partialDateConfidence, common_payment_fractions, strTruthy,
      lowerChars, pyInStr, baseNumChars, List.foldl, c1TxnB, c1Invoice]
    decide
  have hacceptA : acceptMatch c1State c1TxnA c1Invoice (19/20) MatchType.exact = c1Mid := by
    norm_num [acceptMatch, settledSumForInvoice, findTransaction, updateFirst,
      create_journal_entry_from_reconciliation, refOrId, salesGstCode, purchaseGstCode,
      List.filter, List.find?, c1TxnA, c1TxnB, c1Invoice, c1State, c1Mid]
    decide
  have hacceptB : acceptMatch c1Mid c1TxnB c1Invoice (19/20) MatchType.exact = c1Final := by
    norm_num [acceptMatch, settledSumForInvoice, findTransaction, updateFirst,
      create_journal_entry_from_reconciliation, refOrId, salesGstCode, purchaseGstCode,
      List.filter, List.find?, c1TxnA, c1TxnB, c1Invoice, c1Mid, c1Final]
    decide
  have hprocA : processTxn [c1Invoice] (c1State, [], 0, 0) c1TxnA = (c1Mid, [c1M1], 1, 0) := by
    rw [processTxn_accept [c1Invoice] c1TxnA c1State [] 0 0 c1Invoice (19/20)
      MatchType.exact hbestA (by norm_num), hacceptA]
    simp [c1M1, c1TxnA, c1Invoice]
  have hprocB : processTxn [c1Invoice] (c1Mid, [c1M1], 1, 0) c1TxnB =
      (c1Final, [c1M1, c1M2], 2, 0) := by
    rw [processTxn_accept [c1Invoice] c1TxnB c1Mid [c1M1] 1 0 c1Invoice (19/20)
      MatchType.exact hbestB (by norm_num), hacceptB]
    simp [c1M1, c1M2, c1TxnB, c1Invoice]
  have hfold : [c1TxnA, c1TxnB].foldl (processTxn [c1Invoice]) (c1State, [], 0, 0) =
      (c1Final, [c1M1, c1M2], 2, 0) := by
    rw [List.foldl_cons, hprocA, List.foldl_cons, hprocB, List.foldl_nil]
  have hsweep : sweepPending c1Final 1 = (c1Final, 0) := by
    norm_num [sweepPending, sweepStep, findTransaction, List.filter, List.find?, List.foldl,
      c1Final, c1TxnA, c1TxnB]
  have hrun := reconcile_transactions_run c1State 1 [c1TxnA, c1TxnB] [c1Invoice] c1Final
    [c1M1, c1M2] 2 0 c1Final 0 (by decide) (by decide) (by decide) (by decide) (by decide)
    hfold hsweep
  have e12 : ((1:Nat) == 2) = false := rfl
  have e11 : ((1:Nat) == 1) = true := rfl
  have e22 : ((2:Nat) == 2) = true := rfl
  have e21 : ((2:Nat) == 1) = false := rfl
  have hsum : settledSumForInvoice c1Final 1 = 200 := by
    norm_num [settledSumForInvoice, findTransaction, List.filter, List.find?_cons,
      List.find?_nil, e12, e11, e22, e21, c1Final, c1TxnA, c1TxnB]
  exact ⟨hrun, hsum, by rw [hsum]; norm_num [c1Invoice], by decide⟩

/-- C5: a successful `settle_reconciliation` is idempotent — running it again
on the resulting state with the same reconciliation id returns exactly the
same state and reconciliation, so no second journal entry, transaction
status change, or invoice status change can occur. -/
theorem C5_settle_idempotent (s : DBState) (rid : Nat) (p : DBState × Reconciliation)
    (h : settle_reconciliation s rid = .ok p) :
    settle_reconciliation p.1 rid = .ok p := by
  unfold settle_reconciliation at h
  cases hf : findReconciliation s rid with
  | none => rw [hf] at h; cases h
  | some rec0 =>
      rw [hf] at h
      dsimp only at h
      by_cases hs : rec0.status = ReconciliationStatus.settled
      · rw [if_pos hs] at h
        injection h with h'
        subst h'
        unfold settle_reconciliation
        rw [hf]
        dsimp only
        rw [if_pos hs]
      · rw [if_neg hs] at h
        cases hinv : findInvoice s rec0.invoice_id with
        | none =>
            rw [hinv] at h
            cases htxn : findTransaction s rec0.transaction_id <;>
              rw [htxn] at h <;> cases h
        | some inv =>
            rw [hinv] at h
            cases htxn : findTransaction s rec0.transaction_id with
            | none => rw [htxn] at h; cases h
            | some t =>
                rw [htxn] at h
                dsimp only at h
                injection h with h'
                subst h'
                have hstep : List.find? (fun r => r.reconciliation_id == rid)
                    (updateFirst (fun r => r.reconciliation_id == rid)
                      (fun r => { r with status := ReconciliationStatus.settled })
                      s.reconciliations) =
                    some { rec0 with status := ReconciliationStatus.settled } := by
                  rw [@find?_updateFirst _ (fun r => r.reconciliation_id == rid)
                    (fun r => { r with status := ReconciliationStatus.settled })
                    (fun a ha => ha) s.reconciliations]
                  have hfr : s.reconciliations.find? (fun r => r.reconciliation_id == rid) =
                      some rec0 := hf
                  rw [hfr]
                  rfl
                cases hfe : s.entries.find? (fun e =>
                    e.reference == refOrId t && e.company_id == inv.company_id) with
                | some e0 =>
                    unfold settle_reconciliation findReconciliation
                    dsimp only
                    rw [hstep]
                    dsimp only
                    rw [if_pos rfl]
                | none =>
                    unfold settle_reconciliation findReconciliation
                    dsimp only
                    rw [hstep]
                    dsimp only
                    rw [if_pos rfl]

set_option maxRecDepth 2500 in
/-- Witness for C5: settling the already-settled manual reconciliation of the
concrete state returns it unchanged. -/
theorem C5_settle_idempotent_witness :
    settle_reconciliation c5WFinal 1 = .ok (c5WFinal,
      { reconciliation_id := 1, transaction_id := 1, invoice_id := 1,
        match_type := .manual, match_confidence := 1,
        status := ReconciliationStatus.settled }) := by
  have h : settle_reconciliation c5WState 1 = .ok (c5WFinal,
      { reconciliation_id := 1, transaction_id := 1, invoice_id := 1,
        match_type := .manual, match_confidence := 1,
        status := ReconciliationStatus.settled }) := by
    with_unfolding_all (exact rfl)
  exact C5_settle_idempotent c5WState 1 _ h

/-! ## Tracing reconciliations through settlement and the sweep -/

theorem reconsTrace_refl (s : DBState) : ReconsTrace s s :=
  fun r hr => ⟨r, hr, rfl, rfl⟩

theorem reconsTrace_trans {a b c : DBState} (hab : ReconsTrace a b) (hbc : ReconsTrace b c) :
    ReconsTrace a c := by
  intro r hr
  obtain ⟨r1, h1, e1, e2⟩ := hbc r hr
  obtain ⟨r0, h0, f1, f2⟩ := hab r1 h1
  exact ⟨r0, h0, f1.trans e1, f2.trans e2⟩

/-- Settlement never creates a reconciliation: every reconciliation after a
successful `settle_reconciliation` descends from one already present, with
the same primary key and the same confidence. -/
theorem settle_reconsTrace (s : DBState) (rid : Nat) (out : DBState × Reconciliation)
    (h : settle_reconciliation s rid = .ok out) : ReconsTrace s out.1 := by
  unfold settle_reconciliation at h
  cases hf : findReconciliation s rid with
  | none => rw [hf] at h; cases h
  | some rec0 =>
      rw [hf] at h
      dsimp only at h
      by_cases hs : rec0.status = ReconciliationStatus.settled
      · rw [if_pos hs] at h
        injection h with h'
        subst h'
        exact reconsTrace_refl s
      · rw [if_neg hs] at h
        cases hinv : findInvoice s rec0.invoice_id with
        | none =>
            rw [hinv] at h
            cases htxn : findTransaction s rec0.transaction_id <;>
              rw [htxn] at h <;> cases h
        | some inv =>
            rw [hinv] at h
            cases htxn : findTransaction s rec0.transaction_id with
            | none => rw [htxn] at h; cases h
            | some t =>
                rw [htxn] at h
                dsimp only at h
                injection h with h'
                subst h'
                intro r hr
                cases hfe : s.entries.find? (fun e =>
                    e.reference == refOrId t && e.company_id == inv.company_id) with
                | some e0 =>
                    rw [hfe] at hr
                    dsimp only at hr
                    rcases mem_updateFirst hr with hmem | ⟨b, hb, _, hab⟩
                    · exact ⟨r, hmem, rfl, rfl⟩
                    · subst hab; exact ⟨b, hb, rfl, rfl⟩
                | none =>
                    rw [hfe] at hr
                    dsimp only at hr
                    rcases mem_updateFirst hr with hmem | ⟨b, hb, _, hab⟩
                    · exact ⟨r, hmem, rfl, rfl⟩
                    · subst hab; exact ⟨b, hb, rfl, rfl⟩

theorem sweepStep_trace (acc : DBState × Nat) (r : Reconciliation) :
    ReconsTrace acc.1 (sweepStep acc r).1 := by
  unfold sweepStep settle_reconciliation_outcome
  cases hf : findReconciliation acc.1 r.reconciliation_id with
  | none => exact reconsTrace_refl _
  | some rec0 =>
      dsimp only
      by_cases hs : rec0.status = ReconciliationStatus.settled
      · rw [if_pos hs]
        exact reconsTrace_refl _
      · rw [if_neg hs]
        cases hset : settle_reconciliation acc.1 r.reconciliation_id with
        | error e => exact reconsTrace_refl _
        | ok p =>
            have htr := settle_reconsTrace _ _ _ hset
            dsimp only
            by_cases hflag : regenerate_csvs_accepts_company_id = true
            · rw [if_pos hflag]
              exact htr
            · rw [if_neg hflag]
              exact htr

theorem foldl_sweepStep_trace :
    ∀ (L : List Reconciliation) (acc : DBState × Nat),
      ReconsTrace acc.1 (L.foldl sweepStep acc).1 := by
  intro L
  induction L with
  | nil => intro acc; exact reconsTrace_refl _
  | cons x xs ih =>
      intro acc
      rw [List.foldl_cons]
      exact reconsTrace_trans (sweepStep_trace acc x) (ih _)

theorem sweepPending_trace (s : DBState) (cid : Nat) :
    ReconsTrace s (sweepPending s cid).1 := by
  unfold sweepPending
  exact foldl_sweepStep_trace _ (s, 0)

/-! ## Shape of one orchestrator loop iteration -/

theorem acceptMatch_reconciliations (s : DBState) (txn : BankTransaction) (inv : Invoice)
    (conf : ℚ) (mt : MatchType) :
    (acceptMatch s txn inv conf mt).reconciliations = s.reconciliations ++
      [{ reconciliation_id := s.nextReconciliationId, transaction_id := txn.transaction_id,
         invoice_id := inv.invoice_id, match_type := mt, match_confidence := conf,
         status := ReconciliationStatus.settled }] := rfl

theorem acceptMatch_transactions (s : DBState) (txn : BankTransaction) (inv : Invoice)
    (conf : ℚ) (mt : MatchType) :
    (acceptMatch s txn inv conf mt).transactions =
      updateFirst (fun t => t.transaction_id == txn.transaction_id)
        (fun t => { t with status := TransactionStatus.settled }) s.transactions := rfl

/-- Each loop iteration either leaves the state unchanged or accepts the best
match, and acceptance only happens at confidence at least 0.70. -/
theorem processTxn_state (invs : List Invoice)
    (acc : DBState × List ReconMatch × Nat × Nat) (txn : BankTransaction) :
    (processTxn invs acc txn).1 = acc.1 ∨
    ∃ inv conf mt, 7/10 ≤ conf ∧
      (processTxn invs acc txn).1 = acceptMatch acc.1 txn inv conf mt := by
  unfold processTxn
  rcases h1 : (bestCandidateFor txn invs).best_match with _ | inv <;>
    rcases h2 : (bestCandidateFor txn invs).match_type with _ | mt <;>
    simp only [h1, h2]
  · exact Or.inl trivial
  · exact Or.inl trivial
  · exact Or.inl trivial
  · by_cases hc : (bestCandidateFor txn invs).best_confidence ≥ 7/10
    · rw [if_pos hc]
      exact Or.inr ⟨inv, _, mt, hc, rfl⟩
    · rw [if_neg hc]
      exact Or.inl rfl

/-- Reconciliations created by the orchestrator loop all have confidence at
least 0.70. -/
theorem foldl_processTxn_confidence (invs : List Invoice) :
    ∀ (txns : List BankTransaction) (acc : DBState × List ReconMatch × Nat × Nat),
      ∀ r ∈ (txns.foldl (processTxn invs) acc).1.reconciliations,
        r ∈ acc.1.reconciliations ∨ 7/10 ≤ r.match_confidence := by
  intro txns
  induction txns with
  | nil => intro acc r hr; exact Or.inl hr
  | cons t ts ih =>
      intro acc r hr
      rw [List.foldl_cons] at hr
      rcases ih (processTxn invs acc t) r hr with hmem | hge
      · rcases processTxn_state invs acc t with heq | ⟨inv, conf, mt, hconf, heq⟩
        · rw [heq] at hmem
          exact Or.inl hmem
        · rw [heq, acceptMatch_reconciliations] at hmem
          rcases List.mem_append.mp hmem with hold | hnew
          · exact Or.inl hold
          · right
            have hre : r = ⟨acc.1.nextReconciliationId, t.transaction_id,
                inv.invoice_id, mt, conf, ReconciliationStatus.settled⟩ := by
              simpa using hnew
            rw [hre]
            exact hconf
      · exact Or.inr hge

/-- C4: a `reconcile` call never creates a reconciliation with confidence
below 0.70 — every reconciliation in the resulting state either descends
from one already stored before the call (same id, same confidence) or has
confidence at least 0.70.  Transactions without such a match get no
reconciliation at all: the loop simply leaves them out. -/
theorem C4_threshold_gate (s : DBState) (cid : Nat) :
    ∀ r ∈ (stateAfterReconcile s cid).reconciliations,
      (∃ r0, r0 ∈ s.reconciliations ∧ r0.reconciliation_id = r.reconciliation_id ∧
        r0.match_confidence = r.match_confidence) ∨ 7/10 ≤ r.match_confidence := by
  unfold stateAfterReconcile
  cases hrec : reconcile_transactions s cid with
  | error e =>
      dsimp only
      intro r hr
      exact Or.inl ⟨r, hr, rfl, rfl⟩
  | ok out =>
      dsimp only
      intro r hr
      simp only [reconcile_transactions] at hrec
      split_ifs at hrec with h1 h2 h3
      · injection hrec with h'
        subst h'
        exact Or.inl ⟨r, hr, rfl, rfl⟩
      · injection hrec with h'
        subst h'
        exact Or.inl ⟨r, hr, rfl, rfl⟩
      · injection hrec with h'
        subst h'
        obtain ⟨r1, h1m, hid, hcf⟩ := sweepPending_trace _ cid r hr
        rcases foldl_processTxn_confidence _ _ _ r1 h1m with hm | hge
        · exact Or.inl ⟨r1, hm, hid, hcf⟩
        · right
          rw [hcf] at hge
          exact hge

/-- Witness for C4: the exact-match scenario creates exactly one new
reconciliation, and the theorem certifies it is either pre-existing or above
the gate; the state starts with no reconciliations, so the created one has
confidence 0.95 ≥ 0.70. -/
theorem C4_threshold_gate_witness :
    ((⟨5, 7, 1, MatchType.exact, 19/20, ReconciliationStatus.settled⟩ : Reconciliation) ∈
       (stateAfterReconcile c4WState 1).reconciliations) ∧
    ((∃ r0, r0 ∈ c4WState.reconciliations ∧
        r0.reconciliation_id = (⟨5, 7, 1, MatchType.exact, 19/20,
          ReconciliationStatus.settled⟩ : Reconciliation).reconciliation_id ∧
        r0.match_confidence = (⟨5, 7, 1, MatchType.exact, 19/20,
          ReconciliationStatus.settled⟩ : Reconciliation).match_confidence) ∨
      7/10 ≤ (⟨5, 7, 1, MatchType.exact, 19/20,
        ReconciliationStatus.settled⟩ : Reconciliation).match_confidence) := by
  have hbest : bestCandidateFor c4WTxn [c4WInvoice] =
      { best_match := some c4WInvoice, best_confidence := 19/20,
        match_type := some MatchType.exact } := by
    norm_num [bestCandidateFor, considerInvoice, exact_match, exactDateReject, fuzzy_match,
      fuzzyAmountDiff, fuzzyCombine, partial_payment_match, partial_reference_match,
      partial_description_match, partialDateConfidence, common_payment_fractions, strTruthy,
      lowerChars, pyInStr, baseNumChars, List.foldl, c4WTxn, c4WInvoice]
    decide
  have haccept : acceptMatch c4WState c4WTxn c4WInvoice (19/20) MatchType.exact = c4WFinal := by
    with_unfolding_all (exact rfl)
  have hproc : processTxn [c4WInvoice] (c4WState, [], 0, 0) c4WTxn =
      (c4WFinal, [c4WM], 1, 0) := by
    rw [processTxn_accept [c4WInvoice] c4WTxn c4WState [] 0 0 c4WInvoice (19/20)
      MatchType.exact hbest (by norm_num), haccept]
    simp [c4WM, c4WTxn, c4WInvoice]
  have hfold : [c4WTxn].foldl (processTxn [c4WInvoice]) (c4WState, [], 0, 0) =
      (c4WFinal, [c4WM], 1, 0) := by
    rw [List.foldl_cons, hproc, List.foldl_nil]
  have hsweep : sweepPending c4WFinal 1 = (c4WFinal, 0) := by
    norm_num [sweepPending, sweepStep, findTransaction, List.filter, List.find?, List.foldl,
      c4WFinal, c4WTxn]
  have hrun := reconcile_transactions_run c4WState 1 [c4WTxn] [c4WInvoice] c4WFinal [c4WM]
    1 0 c4WFinal 0 (by decide) (by decide) (by decide) (by decide) (by decide) hfold hsweep
  have hstate : stateAfterReconcile c4WState 1 = c4WFinal := by
    unfold stateAfterReconcile
    rw [hrun]
  have hmem : (⟨5, 7, 1, MatchType.exact, 19/20, ReconciliationStatus.settled⟩ :
      Reconciliation) ∈ (stateAfterReconcile c4WState 1).reconciliations := by
    rw [hstate]
    norm_num [c4WFinal]
  exact ⟨hmem, C4_threshold_gate c4WState 1 _ hmem⟩

/-! ## Preservation of the engine invariant -/

/-- Under unique transaction ids, any member of the status-update list whose
id is the updated one is settled. -/
theorem mem_updateFirst_txn_settled (l : List BankTransaction) (tid : Nat)
    (hnd : (l.map (fun t => t.transaction_id)).Nodup) (t : BankTransaction)
    (ht : t ∈ updateFirst (fun t => t.transaction_id == tid)
      (fun t => { t with status := TransactionStatus.settled }) l)
    (hid : t.transaction_id = tid) : t.status = TransactionStatus.settled := by
  induction l with
  | nil => cases ht
  | cons x xs ih =>
      rw [List.map_cons, List.nodup_cons] at hnd
      by_cases hx : (x.transaction_id == tid) = true
      · simp only [updateFirst, if_pos hx] at ht
        rcases List.mem_cons.mp ht with h | h
        · rw [h]
        · exfalso
          have hxid : x.transaction_id = tid := by simpa using hx
          have hmem : t.transaction_id ∈ xs.map (fun t => t.transaction_id) :=
            List.mem_map_of_mem _ h
          rw [hid, ← hxid] at hmem
          exact hnd.1 hmem
      · simp only [updateFirst, if_neg hx] at ht
        rcases List.mem_cons.mp ht with h | h
        · exfalso
          apply hx
          rw [h] at hid
          simpa using hid
        · exact ih hnd.2 h

/-- Lemma: `acceptMatch` preserves the engine invariant when the transaction is not
yet covered by any reconciliation. -/
theorem acceptMatch_inv (s : DBState) (txn : BankTransaction) (inv : Invoice)
    (conf : ℚ) (mt : MatchType)
    (hInv : EngineInv s) (hND : TxnIdsNodup s)
    (hnew : ∀ r ∈ s.reconciliations, r.transaction_id ≠ txn.transaction_id) :
    EngineInv (acceptMatch s txn inv conf mt) ∧ TxnIdsNodup (acceptMatch s txn inv conf mt) := by
  obtain ⟨hA, hB, hC⟩ := hInv
  have hrec := acceptMatch_reconciliations s txn inv conf mt
  have htx := acceptMatch_transactions s txn inv conf mt
  refine ⟨⟨?_, ?_, ?_⟩, ?_⟩
  · intro r hr
    rw [hrec] at hr
    rcases List.mem_append.mp hr with h | h
    · exact hA r h
    · have : r = ⟨s.nextReconciliationId, txn.transaction_id, inv.invoice_id, mt, conf,
          ReconciliationStatus.settled⟩ := by simpa using h
      rw [this]
  · show ((acceptMatch s txn inv conf mt).reconciliations.map
      (fun r => r.transaction_id)).Nodup
    rw [hrec, List.map_append, List.nodup_append]
    refine ⟨hB, List.nodup_singleton _, ?_⟩
    intro a ha hb
    have hb' : a = txn.transaction_id := by simpa using hb
    subst hb'
    obtain ⟨r0, hr0, hval⟩ := List.mem_map.mp ha
    exact hnew r0 hr0 hval
  · intro r hr t ht hid
    rw [htx] at ht
    rw [hrec] at hr
    rcases List.mem_append.mp hr with hrold | hrnewm
    · rcases mem_updateFirst ht with htold | ⟨b, hbmem, _, htb⟩
      · exact hC r hrold t htold hid
      · rw [htb]
    · have hrn : r = ⟨s.nextReconciliationId, txn.transaction_id, inv.invoice_id, mt, conf,
          ReconciliationStatus.settled⟩ := by simpa using hrnewm
      rw [hrn] at hid
      exact mem_updateFirst_txn_settled s.transactions txn.transaction_id hND t ht hid
  · show ((acceptMatch s txn inv conf mt).transactions.map
      (fun t => t.transaction_id)).Nodup
    rw [htx, @map_updateFirst _ _ (fun t => t.transaction_id == txn.transaction_id)
      (fun t => { t with status := TransactionStatus.settled })
      (fun t => t.transaction_id) (fun a => rfl) s.transactions]
    exact hND

/-- The orchestrator loop preserves the engine invariant when started on a
batch of transactions with unique ids none of which is already covered by a
reconciliation. -/
theorem foldl_processTxn_inv (invs : List Invoice) :
    ∀ (txns : List BankTransaction) (acc : DBState × List ReconMatch × Nat × Nat),
      EngineInv acc.1 → TxnIdsNodup acc.1 →
      (txns.map (fun t => t.transaction_id)).Nodup →
      (∀ t ∈ txns, ∀ r ∈ acc.1.reconciliations, r.transaction_id ≠ t.transaction_id) →
      EngineInv (txns.foldl (processTxn invs) acc).1 ∧
        TxnIdsNodup (txns.foldl (processTxn invs) acc).1 := by
  intro txns
  induction txns with
  | nil => intro acc h1 h2 _ _; exact ⟨h1, h2⟩
  | cons t ts ih =>
      intro acc hInv hND hnd hfresh
      rw [List.map_cons, List.nodup_cons] at hnd
      rw [List.foldl_cons]
      rcases processTxn_state invs acc t with heq | ⟨inv, conf, mt, _, heq⟩
      · refine ih (processTxn invs acc t) (heq ▸ hInv) (heq ▸ hND) hnd.2 ?_
        intro u hu r hrm
        rw [heq] at hrm
        exact hfresh u (List.mem_cons_of_mem _ hu) r hrm
      · have hnewpre : ∀ r ∈ acc.1.reconciliations, r.transaction_id ≠ t.transaction_id :=
          fun r hr => hfresh t (List.mem_cons_self _ _) r hr
        obtain ⟨hInv', hND'⟩ := acceptMatch_inv acc.1 t inv conf mt hInv hND hnewpre
        refine ih (processTxn invs acc t) (heq ▸ hInv') (heq ▸ hND') hnd.2 ?_
        intro u hu r hrm
        rw [heq, acceptMatch_reconciliations] at hrm
        rcases List.mem_append.mp hrm with hold | hnewm
        · exact hfresh u (List.mem_cons_of_mem _ hu) r hold
        · have : r = ⟨acc.1.nextReconciliationId, t.transaction_id, inv.invoice_id, mt, conf,
              ReconciliationStatus.settled⟩ := by simpa using hnewm
          rw [this]
          intro hcontra
          apply hnd.1
          have hcontra' : t.transaction_id = u.transaction_id := by simpa using hcontra
          rw [hcontra']
          exact List.mem_map_of_mem _ hu

/-- When every stored reconciliation is settled, the pending sweep finds
nothing and returns the state unchanged. -/
theorem sweepPending_of_all_settled (s : DBState) (cid : Nat)
    (h : ∀ r ∈ s.reconciliations, r.status = ReconciliationStatus.settled) :
    sweepPending s cid = (s, 0) := by
  have hnil : s.reconciliations.filter (fun r =>
      (((findTransaction s r.transaction_id).map
          (fun t => t.company_id == cid)).getD false) &&
      r.status == ReconciliationStatus.pending) = [] := by
    rw [List.filter_eq_nil_iff]
    intro r hr
    simp [h r hr]
  simp only [sweepPending, hnil]
  rfl

/-- When every stored reconciliation is settled, a successful
`settle_reconciliation` is a no-op on the state. -/
theorem settle_noop_of_all_settled (s : DBState) (rid : Nat) (out : DBState × Reconciliation)
    (h : settle_reconciliation s rid = .ok out)
    (hstl : ∀ r ∈ s.reconciliations, r.status = ReconciliationStatus.settled) :
    out.1 = s := by
  unfold settle_reconciliation at h
  cases hf : findReconciliation s rid with
  | none => rw [hf] at h; cases h
  | some rec0 =>
      rw [hf] at h
      dsimp only at h
      have hs : rec0.status = ReconciliationStatus.settled :=
        hstl rec0 (List.mem_of_find?_eq_some hf)
      rw [if_pos hs] at h
      injection h with h'
      subst h'
      rfl

/-- A successful `reconcile_transactions` call preserves the engine
invariant. -/
theorem reconcile_inv (s : DBState) (cid : Nat) (out : DBState × ReconcileSummary)
    (h : reconcile_transactions s cid = .ok out)
    (hInv : EngineInv s) (hND : TxnIdsNodup s) :
    EngineInv out.1 ∧ TxnIdsNodup out.1 := by
  simp only [reconcile_transactions] at h
  split_ifs at h with h1 h2 h3
  · injection h with h'
    subst h'
    exact ⟨hInv, hND⟩
  · injection h with h'
    subst h'
    exact ⟨hInv, hND⟩
  · injection h with h'
    subst h'
    have hnd : ((s.transactions.filter (fun t =>
        t.company_id == cid && t.status == TransactionStatus.unmatched)).map
        (fun t => t.transaction_id)).Nodup := by
      have hsub : (s.transactions.filter (fun t =>
          t.company_id == cid && t.status == TransactionStatus.unmatched)).Sublist
          s.transactions := List.filter_sublist _
      have hND' : (s.transactions.map (fun t => t.transaction_id)).Nodup := hND
      exact (hsub.map (fun t => t.transaction_id)).nodup hND'
    have hfresh : ∀ t ∈ s.transactions.filter (fun t =>
        t.company_id == cid && t.status == TransactionStatus.unmatched),
        ∀ r ∈ s.reconciliations, r.transaction_id ≠ t.transaction_id := by
      intro t ht r hr hcontra
      have htmem : t ∈ s.transactions := List.mem_of_mem_filter ht
      have htprop := List.of_mem_filter ht
      have htstat : t.status = TransactionStatus.unmatched := by
        simp at htprop
        exact htprop.2
      have := hInv.2.2 r hr t htmem hcontra.symm
      rw [htstat] at this
      cases this
    obtain ⟨hInvF, hNDF⟩ := foldl_processTxn_inv _ _ (s, [], 0, 0) hInv hND hnd
      (fun t ht r hr => hfresh t ht r hr)
    rw [sweepPending_of_all_settled _ cid hInvF.1]
    exact ⟨hInvF, hNDF⟩

/-- The engine invariant holds in every state reachable from an invariant
state through `reconcile`/`settle` calls. -/
theorem engine_inv_reachable (s s' : DBState)
    (hreach : Relation.ReflTransGen EngineStep s s')
    (hInv : EngineInv s) (hND : TxnIdsNodup s) : EngineInv s' ∧ TxnIdsNodup s' := by
  induction hreach with
  | refl => exact ⟨hInv, hND⟩
  | tail _ hstep ih =>
      obtain ⟨hI, hN⟩ := ih
      cases hstep with
      | reconcile cid out he => exact reconcile_inv _ cid out he hI hN
      | settle rid out he =>
          rw [settle_noop_of_all_settled _ rid out he hI.1]
          exact ⟨hI, hN⟩

/-- C3: after any number of `reconcile`/`settle` calls from a state
satisfying the engine invariant (for example a fresh store with no
reconciliations), no two settled reconciliations share a transaction, and
every transaction covered by a settled reconciliation is itself settled —
each transaction is settled at most once and belongs to at most one settled
reconciliation. -/
theorem C3_no_double_settlement (s s' : DBState)
    (hInv : EngineInv s) (hND : TxnIdsNodup s)
    (hreach : Relation.ReflTransGen EngineStep s s') :
    ((s'.reconciliations.filter (fun r => r.status == ReconciliationStatus.settled)).map
      (fun r => r.transaction_id)).Nodup ∧
    (∀ r ∈ s'.reconciliations.filter (fun r => r.status == ReconciliationStatus.settled),
      ∀ t ∈ s'.transactions, t.transaction_id = r.transaction_id →
        t.status = TransactionStatus.settled) := by
  obtain ⟨⟨h1, h2, h3⟩, _⟩ := engine_inv_reachable s s' hreach hInv hND
  have hfull : s'.reconciliations.filter
      (fun r => r.status == ReconciliationStatus.settled) = s'.reconciliations := by
    rw [List.filter_eq_self]
    intro r hr
    simp [h1 r hr]
  rw [hfull]
  exact ⟨h2, h3⟩

/-- Witness for C3: one reconcile step from the concrete settled store. -/
theorem C3_no_double_settlement_witness :
    ((c3WState.reconciliations.filter
        (fun r => r.status == ReconciliationStatus.settled)).map
      (fun r => r.transaction_id)).Nodup ∧
    (∀ r ∈ c3WState.reconciliations.filter
        (fun r => r.status == ReconciliationStatus.settled),
      ∀ t ∈ c3WState.transactions, t.transaction_id = r.transaction_id →
        t.status = TransactionStatus.settled) := by
  have hstep : EngineStep c3WState c3WState := by
    have h : reconcile_transactions c3WState 1 = .ok (c3WState,
        { total_transactions := 0, matches_found := 0, exact_matches := 0, fuzzy_matches := 0,
          auto_settled := 0, settled_existing := 0, matches_list := [] }) := by
      with_unfolding_all (exact rfl)
    exact EngineStep.reconcile c3WState 1 _ h
  exact C3_no_double_settlement c3WState c3WState (by decide) (by decide)
    (Relation.ReflTransGen.single hstep)

/-- Lemma: `manual_settle` never checks the transaction's current status.
For a transaction already settled against a different invoice (no
reconciliation exists for the new pair), it creates a fresh manual
reconciliation with confidence 1.0 for the new pair and settles it, so the
committed state covers the same transaction by two distinct settled
reconciliations.  This is the committed-state and return-value channel;
whether the call returns or raises is settled by the claim theorem below
on `manual_settle_outcome`. -/
theorem manual_settle_no_status_check (s : DBState) (tid iid2 : Nat)
    (r1 : Reconciliation) (inv2 : Invoice) (t : BankTransaction)
    (hnopair : s.reconciliations.find? (fun r =>
      r.transaction_id == tid && r.invoice_id == iid2) = none)
    (hinv : findInvoice s iid2 = some inv2)
    (htxn : findTransaction s tid = some t)
    (hr1 : r1 ∈ s.reconciliations) (hr1s : r1.status = ReconciliationStatus.settled)
    (hr1t : r1.transaction_id = tid)
    (hfresh : ∀ r ∈ s.reconciliations, r.reconciliation_id < s.nextReconciliationId) :
    ∃ s' rnew, manual_settle s tid iid2 = .ok (s', rnew) ∧
      rnew.transaction_id = tid ∧ rnew.status = ReconciliationStatus.settled ∧
      rnew.match_type = MatchType.manual ∧ rnew.match_confidence = 1 ∧
      r1 ∈ s'.reconciliations ∧ rnew ∈ s'.reconciliations ∧
      rnew.reconciliation_id ≠ r1.reconciliation_id ∧
      r1.status = ReconciliationStatus.settled ∧ r1.transaction_id = tid := by
  have hpred : ∀ x ∈ s.reconciliations,
      ((fun r => r.reconciliation_id == s.nextReconciliationId) x) = false := by
    intro x hx
    have := hfresh x hx
    simp only [beq_eq_false_iff_ne, ne_eq]
    omega
  have hfindR : findReconciliation
      { s with reconciliations := s.reconciliations ++
                 [⟨s.nextReconciliationId, tid, iid2, MatchType.manual, 1,
                   ReconciliationStatus.pending⟩],
               nextReconciliationId := s.nextReconciliationId + 1 }
      s.nextReconciliationId =
      some ⟨s.nextReconciliationId, tid, iid2, MatchType.manual, 1,
        ReconciliationStatus.pending⟩ := by
    unfold findReconciliation
    dsimp only
    rw [find?_append_left _ hpred]
    simp [List.find?]
  have hfindI : findInvoice
      { s with reconciliations := s.reconciliations ++
                 [⟨s.nextReconciliationId, tid, iid2, MatchType.manual, 1,
                   ReconciliationStatus.pending⟩],
               nextReconciliationId := s.nextReconciliationId + 1 } iid2 = some inv2 := hinv
  have hfindT : findTransaction
      { s with reconciliations := s.reconciliations ++
                 [⟨s.nextReconciliationId, tid, iid2, MatchType.manual, 1,
                   ReconciliationStatus.pending⟩],
               nextReconciliationId := s.nextReconciliationId + 1 } tid = some t := htxn
  unfold manual_settle
  rw [hnopair]
  dsimp only
  unfold settle_reconciliation
  rw [hfindR]
  dsimp only
  rw [if_neg (show ¬(ReconciliationStatus.pending = ReconciliationStatus.settled) by decide)]
  rw [hfindI, hfindT]
  dsimp only
  refine ⟨_, _, rfl, rfl, rfl, rfl, rfl, ?_, ?_, ?_, hr1s, hr1t⟩
  · split <;>
      · dsimp only
        rw [updateFirst_append_left _ hpred]
        exact List.mem_append_left _ hr1
  · split <;>
      · dsimp only
        rw [updateFirst_append_left _ hpred]
        apply List.mem_append_right
        simp [updateFirst]
  · dsimp only
    have := hfresh r1 hr1
    omega

/-- C10 counterexample: on the concrete store where transaction 1 is already
settled against invoice 1 through settled reconciliation 1, and no
reconciliation exists for the pair of transaction 1 and invoice 2, the claim
says the call `manual_settle 1 2` does not raise; in the source it raises
`TypeError` from the `regenerate_csvs(company_id=...)` call issued by
`settle_reconciliation` after `db.commit()`, because `regenerate_csvs` has
no `company_id` parameter. -/
theorem C10_counterexample_raises :
    c10WTxn.status = TransactionStatus.settled ∧
    c10WRecon ∈ c10WState.reconciliations ∧
    c10WRecon.status = ReconciliationStatus.settled ∧
    c10WRecon.transaction_id = c10WTxn.transaction_id ∧
    c10WRecon.invoice_id ≠ 2 ∧
    c10WState.reconciliations.find? (fun r =>
      r.transaction_id == 1 && r.invoice_id == 2) = none ∧
    (manual_settle_outcome c10WState 1 2).2 =
      Except.error "TypeError: regenerate_csvs() got an unexpected keyword argument" := by
  refine ⟨by decide, by decide, by decide, by decide, by decide, by decide, ?_⟩
  with_unfolding_all (exact rfl)

/-- C10 (amended): `manual_settle` never checks the transaction's current
status.  For a transaction already settled against a different invoice (no
reconciliation exists for the new pair), it creates a fresh manual
reconciliation with confidence 1.0 for the new pair, settles it and commits,
so the committed state durably covers the same transaction by two distinct
settled reconciliations; the call then raises `TypeError` after the commit,
because `settle_reconciliation` ends by calling
`regenerate_csvs(company_id=...)` and `regenerate_csvs` has no `company_id`
parameter. -/
theorem C10_manual_double_settlement_amended (s : DBState) (tid iid2 : Nat)
    (r1 : Reconciliation) (inv2 : Invoice) (t : BankTransaction)
    (hnopair : s.reconciliations.find? (fun r =>
      r.transaction_id == tid && r.invoice_id == iid2) = none)
    (hinv : findInvoice s iid2 = some inv2)
    (htxn : findTransaction s tid = some t)
    (hr1 : r1 ∈ s.reconciliations) (hr1s : r1.status = ReconciliationStatus.settled)
    (hr1t : r1.transaction_id = tid)
    (hfresh : ∀ r ∈ s.reconciliations, r.reconciliation_id < s.nextReconciliationId) :
    ∃ s' rnew,
      manual_settle_outcome s tid iid2 =
        (s', Except.error "TypeError: regenerate_csvs() got an unexpected keyword argument") ∧
      rnew.transaction_id = tid ∧ rnew.status = ReconciliationStatus.settled ∧
      rnew.match_type = MatchType.manual ∧ rnew.match_confidence = 1 ∧
      r1 ∈ s'.reconciliations ∧ rnew ∈ s'.reconciliations ∧
      rnew.reconciliation_id ≠ r1.reconciliation_id ∧
      r1.status = ReconciliationStatus.settled ∧ r1.transaction_id = tid := by
  obtain ⟨s', rnew, hok, h1, h2, h3, h4, h5, h6, h7, h8, h9⟩ :=
    manual_settle_no_status_check s tid iid2 r1 inv2 t hnopair hinv htxn hr1 hr1s hr1t hfresh
  have hpred : ∀ x ∈ s.reconciliations,
      ((fun r => r.reconciliation_id == s.nextReconciliationId) x) = false := by
    intro x hx
    have := hfresh x hx
    simp only [beq_eq_false_iff_ne, ne_eq]
    omega
  have hfindR : findReconciliation
      { s with reconciliations := s.reconciliations ++
                 [⟨s.nextReconciliationId, tid, iid2, MatchType.manual, 1,
                   ReconciliationStatus.pending⟩],
               nextReconciliationId := s.nextReconciliationId + 1 }
      s.nextReconciliationId =
      some ⟨s.nextReconciliationId, tid, iid2, MatchType.manual, 1,
        ReconciliationStatus.pending⟩ := by
    unfold findReconciliation
    dsimp only
    rw [find?_append_left _ hpred]
    simp [List.find?]
  have hset : settle_reconciliation
      { s with reconciliations := s.reconciliations ++
                 [⟨s.nextReconciliationId, tid, iid2, MatchType.manual, 1,
                   ReconciliationStatus.pending⟩],
               nextReconciliationId := s.nextReconciliationId + 1 }
      s.nextReconciliationId = .ok (s', rnew) := by
    have h := hok
    unfold manual_settle at h
    rw [hnopair] at h
    exact h
  refine ⟨s', rnew, ?_, h1, h2, h3, h4, h5, h6, h7, h8, h9⟩
  unfold manual_settle_outcome
  rw [hnopair]
  dsimp only
  unfold settle_reconciliation_outcome
  rw [hfindR]
  dsimp only
  rw [if_neg (show ¬(ReconciliationStatus.pending = ReconciliationStatus.settled) by decide)]
  rw [hset]
  dsimp only
  rfl

/-- Witness for the amended C10 on the concrete store: transaction 1,
already settled against invoice 1, is manually settled against invoice 2;
the double settlement is committed and the call raises. -/
theorem C10_manual_double_settlement_amended_witness :
    ∃ s' rnew,
      manual_settle_outcome c10WState 1 2 =
        (s', Except.error "TypeError: regenerate_csvs() got an unexpected keyword argument") ∧
      rnew.transaction_id = 1 ∧ rnew.status = ReconciliationStatus.settled ∧
      rnew.match_type = MatchType.manual ∧ rnew.match_confidence = 1 ∧
      c10WRecon ∈ s'.reconciliations ∧ rnew ∈ s'.reconciliations ∧
      rnew.reconciliation_id ≠ c10WRecon.reconciliation_id ∧
      c10WRecon.status = ReconciliationStatus.settled ∧ c10WRecon.transaction_id = 1 :=
  C10_manual_double_settlement_amended c10WState 1 2 c10WRecon c10WInv2 c10WTxn
    (by decide) (by decide) (by decide) (by decide) (by decide) (by decide) (by decide)
